import Mathlib

/-!
Formal model of the payroll-distribution-engine record pipeline.

The TypeScript sources are shallowly embedded: a JS object holding string
fields (EmployeeRecord, DETRecord, a parsed CSV row) becomes an association
list `Row = List (String × String)`; an absent key and JS `undefined` read
back as the empty string, exactly as the code's truthiness checks treat
them.  JS numbers are modelled as `Rat` (exact rational arithmetic instead
of IEEE doubles; non-finite parses such as a literal "Infinity" prefix are
modelled as parse failures).  Impure fields of error objects (generated id,
ISO timestamp) are omitted or left as the empty string.  Functions keep the
source's names where possible: isPayrollReady, validateEmployeeRecord,
validateDETRecord, isNumeric, isValidDate, parseAddress, processMessyData,
calculatePerPaycheckRate, generateErrorReport, ...
-/

/- The Batteries rational operations are sealed against unfolding; concrete
evaluations below go through the kernel, which needs them semireducible. -/
attribute [local semireducible] Rat.mul Rat.add Rat.sub Rat.inv Rat.ofScientific

namespace Payroll

/-- A JS object with string-valued properties, in property order. -/
abbrev Row := List (String × String)

/-- Property lookup: `some v` when the key is present, `none` for JS undefined. -/
def getEntry : Row → String → Option String
  | [], _ => none
  | kv :: rest, key => if kv.1 == key then some kv.2 else getEntry rest key

/-- Property read where the caller only distinguishes falsy values:
an absent key (undefined) and the empty string both read as `""`. -/
def getField (row : Row) (key : String) : String :=
  (getEntry row key).getD ""

/-- Whether the object has the key at all (JS `key in obj`). -/
def hasKey (row : Row) (key : String) : Bool :=
  (getEntry row key).isSome

/-- JS property assignment `obj[key] = v`: updates in place, else appends. -/
def setField : Row → String → String → Row
  | [], key, v => [(key, v)]
  | kv :: rest, key, v =>
      if kv.1 == key then (key, v) :: rest else kv :: setField rest key v

/-- JS `delete obj[key]` (object keys are unique, so filtering is the same). -/
def eraseKey (row : Row) (key : String) : Row :=
  row.filter (fun kv => kv.1 != key)

/-- JS truthiness of a string: every non-empty string is truthy. -/
def jsTruthy (s : String) : Bool := !(s == "")

/-- JS `a || b` on strings. -/
def jsOr (a b : String) : String := if a == "" then b else a

/-- JS whitespace for trimming / `\s` (ASCII portion). -/
def jsSpaceChar (c : Char) : Bool :=
  c == ' ' || c == '\t' || c == '\n' || c == '\r' || c == '\x0b' || c == '\x0c'

/-- `String.prototype.trim` over the character list. -/
def trimChars (cs : List Char) : List Char :=
  ((cs.dropWhile jsSpaceChar).reverse.dropWhile jsSpaceChar).reverse

/-- JS `s.trim()`. -/
def jsTrim (s : String) : String := String.mk (trimChars s.toList)

/-- ASCII upper-casing, as `String.prototype.toUpperCase` on ASCII data. -/
def jsToUpper (s : String) : String := String.mk (s.toList.map Char.toUpper)

/-- ASCII lower-casing, as `String.prototype.toLowerCase` on ASCII data. -/
def jsToLower (s : String) : String := String.mk (s.toList.map Char.toLower)

/-- JS `s.replace(/\s+/g, c)`: every maximal whitespace run becomes one `c`. -/
def collapseWsAux (c : Char) : Bool → List Char → List Char
  | _, [] => []
  | prevWs, x :: rest =>
      if jsSpaceChar x then
        (if prevWs then collapseWsAux c true rest else c :: collapseWsAux c true rest)
      else x :: collapseWsAux c false rest

def jsReplaceWsRuns (c : Char) (s : String) : String :=
  String.mk (collapseWsAux c false s.toList)

def allDigits (cs : List Char) : Bool := cs.all (fun c => c.isDigit)

def digitsToNat (cs : List Char) : Nat :=
  cs.foldl (fun a c => a * 10 + (c.toNat - 48)) 0

/-- Split a character list at every occurrence of `sep` (JS `s.split(sep)`). -/
def splitOnChar (sep : Char) : List Char → List (List Char)
  | [] => [[]]
  | c :: rest =>
      let r := splitOnChar sep rest
      if c == sep then [] :: r
      else
        match r with
        | h :: t => (c :: h) :: t
        | [] => [[c]]

/-- Maximal runs of non-whitespace characters (JS `s.split(/\s+/)` after a trim). -/
def wsTokensAux : List Char → List Char → List (List Char)
  | [], acc => if acc.isEmpty then [] else [acc.reverse]
  | c :: rest, acc =>
      if jsSpaceChar c then
        if acc.isEmpty then wsTokensAux rest [] else acc.reverse :: wsTokensAux rest []
      else wsTokensAux rest (c :: acc)

/-- JS `s.trim().split(/ \s+ /)`: the empty string yields `[""]`. -/
def jsSplitWs (s : String) : List String :=
  let t := jsTrim s
  if t == "" then [""] else (wsTokensAux t.toList []).map String.mk

/-- Exponent digits with optional sign; malformed exponents contribute 0
(parseFloat then simply stops before the `e`). -/
def parseSignedDigits (cs : List Char) : Int :=
  match cs with
  | '-' :: ds =>
      let es := ds.takeWhile (fun c => c.isDigit)
      if es.isEmpty then 0 else -(digitsToNat es : Int)
  | '+' :: ds =>
      let es := ds.takeWhile (fun c => c.isDigit)
      if es.isEmpty then 0 else (digitsToNat es : Int)
  | ds =>
      let es := ds.takeWhile (fun c => c.isDigit)
      if es.isEmpty then 0 else (digitsToNat es : Int)

/-- An ExponentPart right after the mantissa, if well-formed; otherwise 0. -/
def parseExponentPart (cs : List Char) : Int :=
  match cs with
  | 'e' :: rest => parseSignedDigits rest
  | 'E' :: rest => parseSignedDigits rest
  | _ => 0

def pow10Rat (e : Int) : Rat :=
  if 0 ≤ e then ((10 : Rat) ^ e.toNat) else 1 / ((10 : Rat) ^ (-e).toNat)

/-- JS `parseFloat`: skip leading whitespace, optional sign, then the longest
prefix `digits [. digits] [exponent]` or `. digits [exponent]`; trailing
garbage is ignored.  `none` models NaN (no numeric prefix); a non-finite
parse ("Infinity") is outside the rational model and also yields `none`. -/
def parseFloat (s : String) : Option Rat :=
  let cs := s.toList.dropWhile jsSpaceChar
  let signAndRest : Bool × List Char :=
    match cs with
    | '-' :: rest => (true, rest)
    | '+' :: rest => (false, rest)
    | _ => (false, cs)
  let neg := signAndRest.1
  let cs1 := signAndRest.2
  let ip := cs1.takeWhile (fun c => c.isDigit)
  let cs2 := cs1.drop ip.length
  let fracAndRest : List Char × List Char :=
    match cs2 with
    | '.' :: rest => (rest.takeWhile (fun c => c.isDigit),
                      rest.drop ((rest.takeWhile (fun c => c.isDigit)).length))
    | _ => ([], cs2)
  let fp := fracAndRest.1
  let cs3 := fracAndRest.2
  if ip.isEmpty && fp.isEmpty then none
  else
    let mantissa : Rat := (digitsToNat (ip ++ fp) : Rat) / ((10 : Rat) ^ fp.length)
    let v := mantissa * pow10Rat (parseExponentPart cs3)
    some (if neg then -v else v)

def padZeros2 (n : Nat) : String := if n < 10 then "0" ++ toString n else toString n

def fmtCents (cents : Nat) : String :=
  toString (cents / 100) ++ "." ++ padZeros2 (cents % 100)

/-- JS `x.toFixed(2)` on an exact rational: per ECMA, the sign is taken off,
then the integer n with n/100 closest to x is chosen, ties to the larger n
(round half-up on the magnitude). -/
def toFixed2 (x : Rat) : String :=
  if x < 0 then "-" ++ fmtCents (Int.toNat ⌊(-x) * 100 + 1/2⌋)
  else fmtCents (Int.toNat ⌊x * 100 + 1/2⌋)

def padLeftZeros (k : Nat) (s : String) : String :=
  if s.length < k then String.mk (List.replicate (k - s.length) '0') ++ s else s

/-- Decimal rendering of a rational with terminating expansion, as JS renders
such numbers in template literals (non-terminating values, which arise in no
message this model proves about, fall back to a fraction rendering). -/
def ratToJsStr (q : Rat) : String :=
  let sign := if q < 0 then "-" else ""
  let n := q.num.natAbs
  let d := q.den
  if d == 1 then sign ++ toString n
  else
    match (List.range 28).find? (fun k => 10 ^ k % d == 0) with
    | some k =>
        let scaled := n * 10 ^ k / d
        sign ++ toString (scaled / 10 ^ k) ++ "." ++ padLeftZeros k (toString (scaled % 10 ^ k))
    | none => sign ++ toString n ++ "/" ++ toString d

/-! Validator service (src: validator, `part_001`).  The error `id` and
`timestamp` fields are generated impurely in the source (generateErrorId,
`new Date()`); the model keeps `id` as a plain string (the validator leaves
it empty) and omits the timestamp. -/

inductive ErrorType where
  | PARSE_ERROR
  | VALIDATION_ERROR
  | REQUIRED_FIELD_MISSING
  | INVALID_FORMAT
  | BUSINESS_LOGIC_ERROR
  | COMPLIANCE_GATE_FAILED
deriving DecidableEq, Repr

structure ProcessingError where
  id : String
  rowId : String
  row : Nat
  field : String
  columnIndex : Option Nat
  value : String
  errorType : ErrorType
  message : String
  suggestedFix : String
deriving DecidableEq, Repr

/-- Required fields for DET records - record tracking fields. -/
def REQUIRED_DET_FIELDS : List String :=
  ["record_type", "record_sequence", "company_id"]

/-- Required fields for employee data (within DET records). -/
def REQUIRED_EMPLOYEE_FIELDS : List String :=
  ["employee_id", "first_name", "last_name", "dob", "ssn",
   "home_street", "home_city", "home_state", "home_zip",
   "hire_date", "job_title", "flsa_status", "annual_salary", "pay_frequency",
   "fed_status", "fed_allowances", "fed_extra_wh_per_paycheck",
   "state_code", "state_extra_wh_per_paycheck",
   "i9_status", "e_verify_status",
   "dd1_routing_number", "dd1_account_number", "dd1_account_type",
   "dd1_split_type", "dd1_split_value"]

def isLeapYear (y : Nat) : Bool :=
  (y % 4 == 0 && y % 100 != 0) || (y % 400 == 0)

def daysInMonth (y m : Nat) : Nat :=
  if m == 2 then (if isLeapYear y then 29 else 28)
  else if m == 4 || m == 6 || m == 9 || m == 11 then 30
  else 31

/-- Validates date format (YYYY-MM-DD): the source tests the 4-2-2 dashed
digit regex and then that `new Date(s)` is not an Invalid Date; for a string
that already passed the regex, the engine's ISO parse accepts exactly the
calendar-valid dates (month 01-12, day within the month, leap years). -/
def isValidDate (dateString : String) : Bool :=
  match dateString.toList with
  | [y1, y2, y3, y4, h1, m1, m2, h2, d1, d2] =>
      allDigits [y1, y2, y3, y4, m1, m2, d1, d2] && h1 == '-' && h2 == '-' &&
      (let y := digitsToNat [y1, y2, y3, y4]
       let m := digitsToNat [m1, m2]
       let d := digitsToNat [d1, d2]
       decide (1 ≤ m ∧ m ≤ 12 ∧ 1 ≤ d ∧ d ≤ daysInMonth y m))
  | _ => false

/-- Validates SSN format: `\d{3}-\d{2}-\d{4}` or `XXX-XX-\d{4}`. -/
def isValidSSN (ssn : String) : Bool :=
  (match ssn.toList with
   | [a, b, c, h1, d, e, h2, f, g, i, j] =>
       allDigits [a, b, c, d, e, f, g, i, j] && h1 == '-' && h2 == '-'
   | _ => false) ||
  (match ssn.toList with
   | ['X', 'X', 'X', '-', 'X', 'X', '-', a, b, c, d] => allDigits [a, b, c, d]
   | _ => false)

/-- Validates email format `[^\s@]+@[^\s@]+\.[^\s@]+` anchored: exactly one
at-sign, no whitespace, and a dot in the domain that is neither its first
nor its last character. -/
def isValidEmail (email : String) : Bool :=
  match email.toList.splitOn '@' with
  | [lcl, dom] =>
      !lcl.isEmpty && !dom.isEmpty &&
      (lcl ++ dom).all (fun c => !jsSpaceChar c) &&
      ((dom.drop 1).dropLast.contains '.')
  | _ => false

/-- Validates numeric string: `!isNaN(parseFloat v) && isFinite(parseFloat v)`. -/
def isNumeric (value : String) : Bool := (parseFloat value).isSome

/-- Validates routing number (9 digits). -/
def isValidRoutingNumber (routing : String) : Bool :=
  routing.toList.length == 9 && allDigits routing.toList

/-- Validates ZIP code: `\d{5}(-\d{4})?`. -/
def isValidZip (zip : String) : Bool :=
  match zip.toList with
  | [a, b, c, d, e] => allDigits [a, b, c, d, e]
  | [a, b, c, d, e, h, f, g, i, j] =>
      allDigits [a, b, c, d, e] && h == '-' && allDigits [f, g, i, j]
  | _ => false

/-- Validates state code: 2 letters after upper-casing. -/
def isValidStateCode (state : String) : Bool :=
  match (jsToUpper state).toList with
  | [a, b] => a.isUpper && b.isUpper
  | _ => false

/-- The error-building closure: `createError` in validateEmployeeRecord
resolves a column index from the header order, the inline object literals of
validateDETRecord do not; both shapes are instances of this builder. -/
def mkError (rowId : String) (rowNumber : Nat) (columnIndex : Option Nat)
    (field value : String) (errorType : ErrorType) (message suggestedFix : String) :
    ProcessingError :=
  ⟨"", rowId, rowNumber, field, columnIndex, value, errorType, message, suggestedFix⟩

/-- The cross-field business rule: direct-deposit split percentages (the
final block of both validators). -/
def ddSplitChecks (mk : String → String → ErrorType → String → String → ProcessingError)
    (record : Row) : List ProcessingError :=
  if getField record "dd1_split_type" == "Percent" && jsTruthy (getField record "dd1_split_value") then
    (match parseFloat (getField record "dd1_split_value") with
     | none =>
        [mk "dd1_split_value" (getField record "dd1_split_value") .BUSINESS_LOGIC_ERROR
            ("Split percentage must be between 0 and 100, got: " ++ getField record "dd1_split_value")
            "Provide a percentage between 0 and 100"]
     | some percent =>
        if decide (percent < 0 ∨ percent > 100) then
          [mk "dd1_split_value" (getField record "dd1_split_value") .BUSINESS_LOGIC_ERROR
              ("Split percentage must be between 0 and 100, got: " ++ getField record "dd1_split_value")
              "Provide a percentage between 0 and 100"]
        else []) ++
    (if getField record "dd2_split_type" == "Percent" && jsTruthy (getField record "dd2_split_value") then
      match parseFloat (getField record "dd1_split_value"), parseFloat (getField record "dd2_split_value") with
      | some percent, some dd2Percent =>
          if decide (|percent + dd2Percent - 100| > 1/100) then
            [mk "dd1_split_value"
                (getField record "dd1_split_value" ++ " + " ++ getField record "dd2_split_value")
                .BUSINESS_LOGIC_ERROR
                ("Direct deposit split percentages must sum to 100%, got: " ++
                 ratToJsStr (percent + dd2Percent) ++ "%")
                "Adjust split values so they sum to 100%"]
          else []
      | _, _ => []
     else [])
  else []

/-- The format and cross-field business checks shared verbatim by
validateDETRecord and validateEmployeeRecord (dob through the
direct-deposit split block, in source order); `mk` is the error builder of
the calling validator. -/
def formatAndBusinessChecks (mk : String → String → ErrorType → String → String → ProcessingError)
    (record : Row) : List ProcessingError :=
  (if jsTruthy (getField record "dob") && !(isValidDate (getField record "dob")) then
    [mk "dob" (getField record "dob") .INVALID_FORMAT
        ("Date of birth must be in YYYY-MM-DD format, got: " ++ getField record "dob")
        "Format as YYYY-MM-DD (e.g., 1990-05-15)"]
   else []) ++
  (if jsTruthy (getField record "hire_date") && !(isValidDate (getField record "hire_date")) then
    [mk "hire_date" (getField record "hire_date") .INVALID_FORMAT
        ("Hire date must be in YYYY-MM-DD format, got: " ++ getField record "hire_date")
        "Format as YYYY-MM-DD (e.g., 2025-11-01)"]
   else []) ++
  (if jsTruthy (getField record "ssn") && !(isValidSSN (getField record "ssn")) then
    [mk "ssn" (getField record "ssn") .INVALID_FORMAT
        ("SSN must be in XXX-XX-XXXX format, got: " ++ getField record "ssn")
        "Format as XXX-XX-XXXX"]
   else []) ++
  (if jsTruthy (getField record "manager_email") && !(isValidEmail (getField record "manager_email")) then
    [mk "manager_email" (getField record "manager_email") .INVALID_FORMAT
        ("Invalid email format: " ++ getField record "manager_email")
        "Please provide a valid email address"]
   else []) ++
  (if jsTruthy (getField record "home_state") && !(isValidStateCode (getField record "home_state")) then
    [mk "home_state" (getField record "home_state") .INVALID_FORMAT
        ("State code must be 2 letters, got: " ++ getField record "home_state")
        "Use 2-letter state code (e.g., SC, GA, NC)"]
   else []) ++
  (if jsTruthy (getField record "work_state") && !(isValidStateCode (getField record "work_state")) then
    [mk "work_state" (getField record "work_state") .INVALID_FORMAT
        ("State code must be 2 letters, got: " ++ getField record "work_state")
        "Use 2-letter state code (e.g., SC, GA, NC)"]
   else []) ++
  (if jsTruthy (getField record "home_zip") && !(isValidZip (getField record "home_zip")) then
    [mk "home_zip" (getField record "home_zip") .INVALID_FORMAT
        ("ZIP code must be 5 or 9 digits, got: " ++ getField record "home_zip")
        "Format as 12345 or 12345-6789"]
   else []) ++
  (if jsTruthy (getField record "work_zip") && !(isValidZip (getField record "work_zip")) then
    [mk "work_zip" (getField record "work_zip") .INVALID_FORMAT
        ("ZIP code must be 5 or 9 digits, got: " ++ getField record "work_zip")
        "Format as 12345 or 12345-6789"]
   else []) ++
  (if jsTruthy (getField record "dd1_routing_number") && !(isValidRoutingNumber (getField record "dd1_routing_number")) then
    [mk "dd1_routing_number" (getField record "dd1_routing_number") .INVALID_FORMAT
        ("Routing number must be 9 digits, got: " ++ getField record "dd1_routing_number")
        "Provide a 9-digit routing number"]
   else []) ++
  (if jsTruthy (getField record "dd2_routing_number") && !(jsTrim (getField record "dd2_routing_number") == "") &&
      !(isValidRoutingNumber (getField record "dd2_routing_number")) then
    [mk "dd2_routing_number" (getField record "dd2_routing_number") .INVALID_FORMAT
        ("Routing number must be 9 digits, got: " ++ getField record "dd2_routing_number")
        "Provide a 9-digit routing number or leave empty"]
   else []) ++
  (if jsTruthy (getField record "annual_salary") && !(isNumeric (getField record "annual_salary")) then
    [mk "annual_salary" (getField record "annual_salary") .INVALID_FORMAT
        ("Annual salary must be numeric, got: " ++ getField record "annual_salary")
        "Provide a numeric value (e.g., 120000)"]
   else []) ++
  (if jsTruthy (getField record "flsa_status") &&
      !(getField record "flsa_status" == "Exempt" || getField record "flsa_status" == "Non-Exempt") then
    [mk "flsa_status" (getField record "flsa_status") .INVALID_FORMAT
        ("FLSA status must be 'Exempt' or 'Non-Exempt', got: " ++ getField record "flsa_status")
        "Use \"Exempt\" or \"Non-Exempt\""]
   else []) ++
  (if jsTruthy (getField record "pay_frequency") &&
      !(getField record "pay_frequency" == "Weekly" || getField record "pay_frequency" == "Bi-weekly" ||
        getField record "pay_frequency" == "Semi-monthly" || getField record "pay_frequency" == "Monthly") then
    [mk "pay_frequency" (getField record "pay_frequency") .INVALID_FORMAT
        ("Pay frequency must be one of: Weekly, Bi-weekly, Semi-monthly, Monthly, got: " ++
         getField record "pay_frequency")
        "Use one of: Weekly, Bi-weekly, Semi-monthly, Monthly"]
   else []) ++
  ddSplitChecks mk record

/-- The required-employee-fields loop shared by both validators. -/
def requiredEmployeeChecks (mk : String → String → ErrorType → String → String → ProcessingError)
    (record : Row) : List ProcessingError :=
  REQUIRED_EMPLOYEE_FIELDS.filterMap (fun field =>
    if jsTrim (getField record field) == "" then
      some (mk field "" .REQUIRED_FIELD_MISSING
        ("Required employee field '" ++ field ++ "' is missing or empty")
        ("Please provide a value for " ++ field))
    else none)

/-- JS template interpolation of a possibly-undefined property. -/
def showUndef (v : Option String) : String :=
  match v with
  | some s => s
  | none => "undefined"

/-- The DET-specific structure checks: discriminator, tracking-field
presence, numeric sequence (the opening blocks of validateDETRecord). -/
def detStructureChecks (mk : String → String → ErrorType → String → String → ProcessingError)
    (record : Row) : List ProcessingError :=
  (if getField record "record_type" == "DET" then []
   else
    [mk "record_type" (jsOr (getField record "record_type") "") .INVALID_FORMAT
        ("Expected record_type 'DET', got '" ++ showUndef (getEntry record "record_type") ++ "'")
        "Set record_type to 'DET' for detail records"]) ++
  (REQUIRED_DET_FIELDS.filterMap (fun field =>
    if jsTrim (getField record field) == "" then
      some (mk field "" .REQUIRED_FIELD_MISSING
        ("Required DET field '" ++ field ++ "' is missing or empty")
        ("Please provide a value for " ++ field))
    else none)) ++
  (if jsTruthy (getField record "record_sequence") && !(isNumeric (getField record "record_sequence")) then
    [mk "record_sequence" (getField record "record_sequence") .INVALID_FORMAT
        ("Record sequence must be numeric, got: " ++ getField record "record_sequence")
        "Provide a numeric sequence number"]
   else [])

/-- Validates a DET (Detail) record (rowIndex is 0-based, as in the source). -/
def validateDETRecord (record : Row) (rowIndex : Nat) : List ProcessingError :=
  let rowId := jsOr (getField record "employee_id")
    (jsOr (getField record "record_sequence") ("row_" ++ toString rowIndex))
  let mk := fun (field value : String) (errorType : ErrorType) (message suggestedFix : String) =>
    mkError rowId (rowIndex + 1) none field value errorType message suggestedFix
  detStructureChecks mk record ++
  requiredEmployeeChecks mk record ++
  formatAndBusinessChecks mk record

/-- Resolves a 0-based column index by exact name lookup in the header
order; an empty/absent header list or a missing name yields no index. -/
def getColumnIndex (headerFields : List String) (fieldName : String) : Option Nat :=
  if headerFields.isEmpty then none
  else headerFields.findIdx? (fun f => f == fieldName)

/-- Validates a single employee record; only employee fields, not
DET-specific tracking fields. -/
def validateEmployeeRecord (record : Row) (rowIndex : Nat)
    (headerFields : List String) : List ProcessingError :=
  let rowId := jsOr (getField record "employee_id") ("row_" ++ toString rowIndex)
  let createError := fun (field value : String) (errorType : ErrorType) (message suggestedFix : String) =>
    mkError rowId (rowIndex + 1) (getColumnIndex headerFields field) field value errorType
      message suggestedFix
  requiredEmployeeChecks createError record ++
  formatAndBusinessChecks createError record

/-- Checks if employee is ready for payroll (compliance gate). -/
def isPayrollReady (record : Row) : Bool :=
  getField record "i9_status" == "Completed" && getField record "e_verify_status" == "Authorized"

/-! CSV processor service (src: `csvProcessor.ts`): address parsing, messy-data
normalization and the per-row step of processCSV.  Papa.parse itself (text to
rows, header normalization) is host I/O; the model starts from the list of
parsed rows with normalized field names, which is what the step callback
receives.  The row number passed to each step is the 1-based row counter
(the source prefers the parser's byte cursor when available; the counter is
its documented fallback and does not affect any property proved here). -/

structure ProcessingWarning where
  rowId : String
  row : Nat
  field : String
  originalValue : String
  message : String
deriving DecidableEq, Repr

structure ParsedAddress where
  street : String
  city : String
  state : String
  zip : String
deriving DecidableEq, Repr

/-- Length of the suffix of (already trimmed) `cs` matched by the regex
`(\d{5}(?:-\d{4})?)\s*$`: 10 for a ZIP+4 suffix, 5 for a bare 5-digit
suffix, none otherwise.  After the trim the `\s*` is empty, so the match is
a literal suffix and `lastIndexOf` finds exactly it. -/
def zipSuffixLen (cs : List Char) : Option Nat :=
  match cs.reverse with
  | a :: b :: c :: d :: '-' :: e :: f :: g :: h :: i :: _ =>
      if allDigits [a, b, c, d, e, f, g, h, i] then some 10 else none
  | a :: b :: c :: d :: e :: _ =>
      if allDigits [a, b, c, d, e] then some 5 else none
  | _ => none

/-- Parses a single address string "street(, more street)*, city, STATE ZIP"
into components, or fails. -/
def parseAddress (addressString : String) : Option ParsedAddress :=
  if jsTrim addressString == "" then none
  else
    let trimmed := jsTrim addressString
    let cs := trimmed.toList
    match zipSuffixLen cs with
    | none => none
    | some zipLen =>
        let zip := String.mk (cs.drop (cs.length - zipLen))
        let beforeZip := jsTrim (String.mk (cs.take (cs.length - zipLen)))
        let parts := (splitOnChar ',' beforeZip.toList).map (fun p => jsTrim (String.mk p))
        if parts.length < 2 then none
        else
          some ⟨(parts.dropLast.dropLast).intersperse ", " |>.foldl (· ++ ·) "",
                parts.dropLast.getLastD "", parts.getLastD "", zip⟩

/-- One combined-address rule of processMessyData: the home and work blocks
are this function at their respective key names, run in sequence on the
(row, warnings) pair. -/
def addressBlock (rowId : String) (rowIndex : Nat)
    (streetKey addrKey cityKey stateKey zipKey : String) (message : String)
    (rw : Row × List ProcessingWarning) : Row × List ProcessingWarning :=
  let row := rw.1
  if !(jsTruthy (getField row streetKey)) && jsTruthy (getField row addrKey) then
    match parseAddress (getField row addrKey) with
    | some parsed =>
        (eraseKey (setField (setField (setField (setField row streetKey parsed.street)
            cityKey parsed.city) stateKey parsed.state) zipKey parsed.zip) addrKey,
         rw.2 ++ [⟨rowId, rowIndex, addrKey, getField row addrKey, message⟩])
    | none => (eraseKey row addrKey, rw.2)
  else rw

/-- The combined-name rule of processMessyData. -/
def nameBlock (rowId : String) (rowIndex : Nat)
    (rw : Row × List ProcessingWarning) : Row × List ProcessingWarning :=
  let row := rw.1
  if !(jsTruthy (getField row "first_name")) && jsTruthy (getField row "full_name") then
    let nameParts := jsSplitWs (getField row "full_name")
    if nameParts.length ≥ 2 then
      (eraseKey (setField (setField row "first_name" (nameParts.headD ""))
          "last_name" ((nameParts.drop 1).intersperse " " |>.foldl (· ++ ·) "")) "full_name",
       rw.2 ++ [⟨rowId, rowIndex, "full_name", getField row "full_name",
                 "Combined name field split into first_name and last_name"⟩])
    else (eraseKey row "full_name", rw.2)
  else rw

/-- Processes a single row to handle messy data formats: splits combined
fields into canonical sub-fields and appends warnings to the caller's list. -/
def processMessyData (row : Row) (rowIndex : Nat)
    (warnings : List ProcessingWarning) : Row × List ProcessingWarning :=
  let rowId := jsOr (getField row "employee_id") ("row_" ++ toString rowIndex)
  nameBlock rowId rowIndex
    (addressBlock rowId rowIndex "work_street" "work_address" "work_city" "work_state" "work_zip"
      "Combined address field split into work_street, work_city, work_state, work_zip"
      (addressBlock rowId rowIndex "home_street" "home_address" "home_city" "home_state" "home_zip"
        "Combined address field split into home_street, home_city, home_state, home_zip"
        (row, warnings)))

/-- The accumulated outputs of processCSV: employee rows, DET records,
warnings, and the non-fatal parse-error entries (message, row number). -/
structure CSVResult where
  rows : List Row
  detRecords : List Row
  warnings : List ProcessingWarning
  errors : List (String × Nat)
deriving DecidableEq, Repr

/-- Extracts employee data from a DET record (drops the three tracking fields). -/
def extractEmployeeData (detRecord : Row) : Row :=
  eraseKey (eraseKey (eraseKey detRecord "record_type") "record_sequence") "company_id"

/-- The step callback of processCSV on one parsed row: only rows whose
upper-cased record_type is the DET marker are normalized and promoted;
header and footer rows are skipped silently. -/
def stepCSV (rowNumber : Nat) (row : Row) (acc : CSVResult) : CSVResult :=
  if jsToUpper (getField row "record_type") == "DET" then
    let cleaned := processMessyData row rowNumber acc.warnings
    let cleanedRow := cleaned.1
    let recordSequence := getField cleanedRow "record_sequence"
    let companyId := getField cleanedRow "company_id"
    let errors2 := acc.errors ++
      (if jsTrim recordSequence == "" then
        [("Row " ++ toString rowNumber ++
          ": Missing required field 'record_sequence' in DET record. Available fields: " ++
          ((cleanedRow.map Prod.fst).intersperse ", " |>.foldl (· ++ ·) ""), rowNumber)]
       else []) ++
      (if jsTrim companyId == "" then
        [("Row " ++ toString rowNumber ++
          ": Missing required field 'company_id' in DET record. Available fields: " ++
          ((cleanedRow.map Prod.fst).intersperse ", " |>.foldl (· ++ ·) ""), rowNumber)]
       else [])
    let detRecord := setField (setField cleanedRow "record_sequence" (jsOr recordSequence ""))
      "company_id" (jsOr companyId "")
    ⟨acc.rows ++ [extractEmployeeData detRecord],
     acc.detRecords ++ [detRecord],
     cleaned.2, errors2⟩
  else acc

/-- The whole step loop of processCSV with its 1-based row counter. -/
def runCSV (rowNumber : Nat) (rs : List Row) (acc : CSVResult) : CSVResult :=
  match rs with
  | [] => acc
  | row :: rest => runCSV (rowNumber + 1) rest (stepCSV rowNumber row acc)

/-- processCSV over the already-parsed row list. -/
def processCSVRows (rs : List Row) : CSVResult :=
  runCSV 1 rs ⟨[], [], [], []⟩

/-! Transformer service (src: `transformer.ts`) and the default provider
mappings (src: defaultMappings, `part_000`).  getProviderMapping returns the
built-in default or a custom admin-supplied mapping loaded from storage;
the engine itself — the two passes below — is a pure function of the
mapping and the record, so it is modelled as `applyMapping` and
transformToADP/transformToQuickBooks instantiate it at the defaults. -/

structure FieldMapping where
  sourceField : String
  targetField : String

/-- A provider mapping: the ordered field-mapping list and the transformation
table keyed by target field (a JS object: insertion-ordered, unique keys). -/
structure ProviderMapping where
  provider : String
  fieldMappings : List FieldMapping
  transformations : List (String × (String → Row → String))

/-- JS `mapping.transformations[targetField]`. -/
def findTransformation (m : ProviderMapping) (targetField : String) :
    Option (String → Row → String) :=
  match m.transformations.find? (fun kv => kv.1 == targetField) with
  | some kv => some kv.2
  | none => none

/-- The body of the first loop: the value written for one declared pair
(`String(sourceValue || '')` is the stringified source value). -/
def firstPassValue (m : ProviderMapping) (employee : Row) (fm : FieldMapping) : String :=
  match findTransformation m fm.targetField with
  | some transform => transform (getField employee fm.sourceField) employee
  | none => getField employee fm.sourceField

/-- First pass: apply the declared field mappings in order. -/
def applyFieldMappings (m : ProviderMapping) (employee : Row) : Row :=
  m.fieldMappings.foldl
    (fun out fm => setField out fm.targetField (firstPassValue m employee fm)) []

/-- Second pass: for each transformation-table entry whose output value is
falsy (`!outRecord[targetField]`: absent or the empty string), invoke the
transformation with an empty source value. -/
def applySecondPass (m : ProviderMapping) (employee : Row) (outRecord : Row) : Row :=
  m.transformations.foldl
    (fun out kv => if jsTruthy (getField out kv.1) then out
                   else setField out kv.1 (kv.2 "" employee))
    outRecord

/-- The transformation engine: both passes. -/
def applyMapping (m : ProviderMapping) (employee : Row) : Row :=
  applySecondPass m employee (applyFieldMappings m employee)

/-- Calculates per-paycheck rate from annual salary. -/
def calculatePerPaycheckRate (annualSalary payFrequency : String) : Rat :=
  match parseFloat annualSalary with
  | none => 0
  | some salary =>
      if payFrequency == "Weekly" then salary / 52
      else if payFrequency == "Bi-weekly" then salary / 26
      else if payFrequency == "Semi-monthly" then salary / 24
      else if payFrequency == "Monthly" then salary / 12
      else salary / 26

/-- The ADP PayRate transformation. -/
def adpPayRate : String → Row → String := fun _ record =>
  toFixed2 (calculatePerPaycheckRate (getField record "annual_salary")
    (getField record "pay_frequency"))

/-- The ADP Fed_W4_Status remap (`mapping[value] || value`). -/
def adpFedW4Status : String → Row → String := fun value _ =>
  if value == "Single" then "S"
  else if value == "Married" then "M"
  else if value == "Married Filing Separately" then "MFS"
  else if value == "Head of Household" then "HOH"
  else value

/-- ADP Provider Mapping. -/
def adpMapping : ProviderMapping :=
  ⟨"ADP",
   [⟨"employee_id", "Employee No"⟩, ⟨"ssn", "SSN"⟩, ⟨"first_name", "FName"⟩,
    ⟨"last_name", "LName"⟩, ⟨"dob", "DOB"⟩, ⟨"home_street", "Home_Addr1"⟩,
    ⟨"home_city", "Home_City"⟩, ⟨"home_state", "Home_State"⟩, ⟨"home_zip", "Home_Zip"⟩,
    ⟨"work_street", "Work_Addr1"⟩, ⟨"work_city", "Work_City"⟩,
    ⟨"work_state", "Work_State"⟩, ⟨"work_zip", "Work_Zip"⟩,
    ⟨"hire_date", "HiredDate"⟩, ⟨"job_title", "JobTitle"⟩, ⟨"department", "Dept"⟩,
    ⟨"flsa_status", "FLSA_Status"⟩, ⟨"pay_frequency", "PayFreq"⟩,
    ⟨"fed_status", "Fed_W4_Status"⟩, ⟨"fed_allowances", "Fed_W4_Allow"⟩,
    ⟨"fed_extra_wh_per_paycheck", "Fed_W4_Extra"⟩, ⟨"state_code", "State_Tax_Code"⟩,
    ⟨"state_extra_wh_per_paycheck", "State_Extra_WH"⟩,
    ⟨"local_tax_code_1", "Local_Tax_Code_1"⟩, ⟨"dd1_routing_number", "DD1_Routing"⟩,
    ⟨"dd1_account_number", "DD1_Acct"⟩, ⟨"dd1_account_type", "DD1_Type"⟩,
    ⟨"dd1_split_type", "DD1_SplitType"⟩, ⟨"dd1_split_value", "DD1_SplitValue"⟩,
    ⟨"dd2_routing_number", "DD2_Routing"⟩, ⟨"dd2_account_number", "DD2_Acct"⟩,
    ⟨"dd2_account_type", "DD2_Type"⟩],
   [("Fed_W4_Status", adpFedW4Status),
    ("PayRate", adpPayRate),
    ("Deduct_Code_1", fun _ record => getField record "health_plan_name"),
    ("Deduct_Amt_1", fun _ record => jsOr (getField record "health_deduction_per_paycheck") "0.00"),
    ("Deduct_Code_2", fun _ record => getField record "retirement_plan_type"),
    ("Deduct_Amt_2", fun _ record =>
      if jsTruthy (getField record "retirement_plan_type") &&
         jsTruthy (getField record "annual_salary") &&
         jsTruthy (getField record "retirement_contribution_percent") then
        match parseFloat (getField record "retirement_contribution_percent") with
        | some p =>
            toFixed2 (calculatePerPaycheckRate (getField record "annual_salary")
              (getField record "pay_frequency") * (p / 100))
        | none => "NaN"
      else "0.00"),
    ("Deduct_Code_3", fun _ record =>
      if jsTruthy (getField record "retirement_loan_repayment") then
        match parseFloat (getField record "retirement_loan_repayment") with
        | some v => if decide (0 < v) then "401k Loan" else ""
        | none => ""
      else ""),
    ("Deduct_Amt_3", fun _ record => jsOr (getField record "retirement_loan_repayment") "0.00"),
    ("Deduct_Code_4", fun _ record => getField record "garnishment_type"),
    ("Deduct_Amt_4", fun _ record => jsOr (getField record "garnishment_amount_per_paycheck") "0.00")]⟩

/-- QuickBooks Provider Mapping. -/
def quickBooksMapping : ProviderMapping :=
  ⟨"QuickBooks",
   [⟨"employee_id", "Employee #"⟩, ⟨"ssn", "SSN"⟩, ⟨"dob", "Date of Birth"⟩,
    ⟨"hire_date", "Hire Date"⟩, ⟨"job_title", "Job Title"⟩, ⟨"department", "Department"⟩,
    ⟨"flsa_status", "FLSA Status"⟩, ⟨"pay_frequency", "Per"⟩,
    ⟨"fed_status", "Federal Filing Status"⟩, ⟨"fed_allowances", "Federal Allowances"⟩,
    ⟨"fed_extra_wh_per_paycheck", "Federal Extra Withholding"⟩,
    ⟨"state_code", "State Tax (Work)"⟩,
    ⟨"state_extra_wh_per_paycheck", "State Extra Withholding"⟩,
    ⟨"local_tax_code_1", "Local Tax"⟩, ⟨"i9_status", "I-9 Status"⟩,
    ⟨"e_verify_status", "E-Verify Status"⟩, ⟨"gender", "EEO Gender"⟩,
    ⟨"ethnicity", "EEO Ethnicity"⟩],
   [("Full Name", fun _ record =>
      jsTrim (getField record "first_name" ++ " " ++ getField record "last_name")),
    ("Home Address", fun _ record =>
      jsTrim (getField record "home_street" ++ ", " ++ getField record "home_city" ++ ", " ++
              getField record "home_state" ++ " " ++ getField record "home_zip")),
    ("Work Location", fun _ record =>
      jsTrim (getField record "work_street" ++ ", " ++ getField record "work_city" ++ ", " ++
              getField record "work_state" ++ " " ++ getField record "work_zip")),
    ("Pay Rate ($)", adpPayRate),
    ("Federal Filing Status", fun value _ =>
      if value == "Single" then "single"
      else if value == "Married" then "married_filing_jointly"
      else if value == "Married Filing Separately" then "married_filing_separately"
      else if value == "Head of Household" then "head_of_household"
      else jsReplaceWsRuns '_' (jsToLower value)),
    ("Direct Deposit 1", fun _ record =>
      if jsTruthy (getField record "dd1_routing_number") &&
         jsTruthy (getField record "dd1_account_number") &&
         jsTruthy (getField record "dd1_account_type") then
        let splitInfo := if getField record "dd1_split_type" == "Percent"
          then getField record "dd1_split_value" ++ "%"
          else "$" ++ getField record "dd1_split_value"
        getField record "dd1_routing_number" ++ "-" ++ getField record "dd1_account_number" ++
          "-" ++ getField record "dd1_account_type" ++ "-" ++ splitInfo
      else ""),
    ("Direct Deposit 2", fun _ record =>
      if jsTruthy (getField record "dd2_routing_number") &&
         jsTruthy (getField record "dd2_account_number") &&
         jsTruthy (getField record "dd2_account_type") then
        getField record "dd2_routing_number" ++ "-" ++ getField record "dd2_account_number" ++
          "-" ++ getField record "dd2_account_type"
      else ""),
    ("Health Deduction", fun _ record =>
      if jsTruthy (getField record "health_plan_name") &&
         jsTruthy (getField record "health_deduction_per_paycheck") then
        getField record "health_plan_name" ++ " - " ++ getField record "health_deduction_per_paycheck"
      else ""),
    ("Retirement Deduction", fun _ record =>
      if jsTruthy (getField record "retirement_plan_type") &&
         jsTruthy (getField record "annual_salary") &&
         jsTruthy (getField record "retirement_contribution_percent") then
        match parseFloat (getField record "retirement_contribution_percent") with
        | some p =>
            getField record "retirement_plan_type" ++ " - " ++
              getField record "retirement_contribution_percent" ++ "% ($" ++
              toFixed2 (calculatePerPaycheckRate (getField record "annual_salary")
                (getField record "pay_frequency") * (p / 100)) ++ ")"
        | none => getField record "retirement_plan_type" ++ " - " ++
              getField record "retirement_contribution_percent" ++ "% ($NaN)"
      else ""),
    ("Retirement Loan", fun _ record =>
      if jsTruthy (getField record "retirement_loan_repayment") then
        match parseFloat (getField record "retirement_loan_repayment") with
        | some v => if decide (0 < v) then "$" ++ getField record "retirement_loan_repayment" else ""
        | none => ""
      else ""),
    ("Garnishment", fun _ record =>
      if jsTruthy (getField record "garnishment_type") &&
         jsTruthy (getField record "garnishment_amount_per_paycheck") then
        getField record "garnishment_type" ++ " - $" ++
          getField record "garnishment_amount_per_paycheck"
      else "")]⟩

/-- Transforms an employee record to ADP format (default mapping). -/
def transformToADP (employee : Row) : Row := applyMapping adpMapping employee

/-- Transforms an employee record to QuickBooks format (default mapping). -/
def transformToQuickBooks (employee : Row) : Row := applyMapping quickBooksMapping employee

/-! Error tracker service (src: `errorTracker.ts`).  Storage is browser
localStorage; the model carries the stored correction list explicitly.
`correctedAt` is stamped impurely from the clock, so the model takes the
already-stamped correction. -/

structure ErrorCorrection where
  errorId : String
  originalValue : String
  correctedValue : String
  correctedBy : Option String
  correctedAt : String
  notes : Option String
deriving DecidableEq, Repr

/-- recordCorrection's storage effect: the stamped correction is appended to
the stored list, never overwriting prior corrections for the same error. -/
def recordCorrection (existingCorrections : List ErrorCorrection)
    (fullCorrection : ErrorCorrection) : List ErrorCorrection :=
  existingCorrections ++ [fullCorrection]

/-- One row of the error report (the object built per error before the CSV
stringification, which is presentation only). -/
structure ErrorReportRow where
  errorId : String
  row : Nat
  field : String
  originalValue : String
  errorType : ErrorType
  errorMessage : String
  suggestedFix : String
  correctedValue : String
  correctedAt : String
deriving DecidableEq, Repr

/-- The per-error body of generateErrorReport: filter the corrections to
this error's id, take the last one, and report its values
(`latestCorrection?.correctedValue || ''` — undefined becomes empty). -/
def reportRowFor (error : ProcessingError) (corrections : List ErrorCorrection) :
    ErrorReportRow :=
  let errorCorrections := corrections.filter (fun c => c.errorId == error.id)
  let latestCorrection := errorCorrections.getLast?
  ⟨error.id, error.row, error.field, error.value, error.errorType, error.message,
   jsOr error.suggestedFix "",
   jsOr ((latestCorrection.map (fun c => c.correctedValue)).getD "") "",
   jsOr ((latestCorrection.map (fun c => c.correctedAt)).getD "") ""⟩

/-- Generates the error report rows, one per error in order. -/
def generateErrorReport (errors : List ProcessingError)
    (corrections : List ErrorCorrection) : List ErrorReportRow :=
  errors.map (fun e => reportRowFor e corrections)

/-! Claim-side definitions: vocabulary the claim statements quantify with,
written from the specification's words, and the concrete records of the
spec's scenarios. -/

/-- Spec side (refinement C8): the frequency-dependent divisor — 52 weekly,
26 bi-weekly, 24 semi-monthly, 12 monthly, bi-weekly for anything else. -/
def specDivisor (payFrequency : String) : Rat :=
  if payFrequency == "Weekly" then 52
  else if payFrequency == "Bi-weekly" then 26
  else if payFrequency == "Semi-monthly" then 24
  else if payFrequency == "Monthly" then 12
  else 26

/-- An error of the cross-field business-rule kind. -/
def isBLErr (e : ProcessingError) : Bool :=
  e.errorType == ErrorType.BUSINESS_LOGIC_ERROR

/-- An INVALID_FORMAT error on the dob field. -/
def isDobFormatErr (e : ProcessingError) : Bool :=
  e.field == "dob" && e.errorType == ErrorType.INVALID_FORMAT

/-- A warning attributed to the combined home_address field. -/
def isHomeAddressWarning (w : ProcessingWarning) : Bool :=
  w.field == "home_address"

/-- Scenario A input row (split percentages 60 + 45). -/
def rowScenarioA : Row :=
  [("dd1_split_type", "Percent"), ("dd1_split_value", "60"),
   ("dd2_split_type", "Percent"), ("dd2_split_value", "45")]

/-- Scenario E record: every required field valid except the malformed dob. -/
def rowScenarioE : Row :=
  [("employee_id", "E1001"), ("first_name", "Jane"), ("last_name", "Doe"),
   ("dob", "13/45/2025"), ("ssn", "123-45-6789"),
   ("home_street", "1 A St"), ("home_city", "Hanahan"), ("home_state", "SC"),
   ("home_zip", "29410"), ("hire_date", "2025-01-15"), ("job_title", "Analyst"),
   ("flsa_status", "Exempt"), ("annual_salary", "120000"), ("pay_frequency", "Bi-weekly"),
   ("fed_status", "Single"), ("fed_allowances", "0"), ("fed_extra_wh_per_paycheck", "0"),
   ("state_code", "SC"), ("state_extra_wh_per_paycheck", "0"),
   ("i9_status", "Completed"), ("e_verify_status", "Authorized"),
   ("dd1_routing_number", "123456789"), ("dd1_account_number", "111222"),
   ("dd1_account_type", "Checking"), ("dd1_split_type", "Percent"),
   ("dd1_split_value", "100")]

/-- Scenario B input row (combined home address, empty street). -/
def rowScenarioB : Row :=
  [("employee_id", "E1"), ("home_street", ""), ("home_city", ""),
   ("home_state", ""), ("home_zip", ""),
   ("home_address", "123 Main St, Hanahan, SC 29410")]

/-- A row whose home_address key is present but empty (C5 counterexample). -/
def rowEmptyHomeAddress : Row := [("home_street", ""), ("home_address", "")]

/-- A lower-cased detail discriminator (C4 counterexample). -/
def rowLowercaseDet : Row :=
  [("record_type", "det"), ("record_sequence", "1"), ("company_id", "C1")]

/-- A mapping whose transformation returns the empty string on the mapped
source value and a non-empty string on the empty source value
(C3 counterexample). -/
def cexMapping : ProviderMapping :=
  ⟨"X", [⟨"a", "T"⟩], [("T", fun v _ => if v == "" then "X" else "")]⟩

def cexEmployee : Row := [("a", "y")]

/-! Helper lemmas about the object model. -/

theorem getEntry_setField_self (row : Row) (k v : String) :
    getEntry (setField row k v) k = some v := by
  induction row with
  | nil => simp [setField, getEntry]
  | cons kv rest ih =>
      by_cases h : kv.1 == k
      · simp [setField, h, getEntry]
      · simp [setField, h, getEntry, ih]

theorem getEntry_setField_ne (row : Row) (k k' v : String) (h : k' ≠ k) :
    getEntry (setField row k v) k' = getEntry row k' := by
  induction row with
  | nil =>
      simp [setField, getEntry]
      intro hkk
      exact absurd hkk.symm h
  | cons kv rest ih =>
      by_cases hk : kv.1 == k
      · have hne : ¬(k == k') := by
          simp only [beq_iff_eq]
          intro hk2
          exact h hk2.symm
        have hkv : ¬(kv.1 == k') := by
          simp only [beq_iff_eq] at hk ⊢
          rw [hk]
          intro hk2
          exact h hk2.symm
        simp [setField, hk, getEntry, hne, hkv]
      · by_cases hk' : kv.1 == k'
        · simp [setField, hk, getEntry, hk']
        · simp [setField, hk, getEntry, hk', ih]

theorem getField_setField_self (row : Row) (k v : String) :
    getField (setField row k v) k = v := by
  simp [getField, getEntry_setField_self]

theorem getField_setField_ne (row : Row) (k k' v : String) (h : k' ≠ k) :
    getField (setField row k v) k' = getField row k' := by
  simp [getField, getEntry_setField_ne row k k' v h]

theorem getEntry_eraseKey_self (row : Row) (k : String) :
    getEntry (eraseKey row k) k = none := by
  induction row with
  | nil => simp [eraseKey, getEntry]
  | cons kv rest ih =>
      simp only [eraseKey, List.filter_cons, bne] at ih ⊢
      by_cases h : kv.1 == k
      · simp [bne, h, ih]
      · simp [bne, h, getEntry, ih]

theorem getEntry_eraseKey_ne (row : Row) (k k' : String) (h : k' ≠ k) :
    getEntry (eraseKey row k) k' = getEntry row k' := by
  induction row with
  | nil => simp [eraseKey, getEntry]
  | cons kv rest ih =>
      simp only [eraseKey, List.filter_cons, bne] at ih ⊢
      by_cases hk : kv.1 == k
      · have hkv : ¬(kv.1 == k') := by
          simp only [beq_iff_eq] at hk ⊢
          rw [hk]
          intro hk2
          exact h hk2.symm
        simp [bne, hk, getEntry, hkv, ih]
      · by_cases hk' : kv.1 == k'
        · simp [bne, hk, getEntry, hk']
        · simp [bne, hk, getEntry, hk', ih]

theorem getField_eraseKey_ne (row : Row) (k k' : String) (h : k' ≠ k) :
    getField (eraseKey row k) k' = getField row k' := by
  simp [getField, getEntry_eraseKey_ne row k k' h]

theorem hasKey_eraseKey_self (row : Row) (k : String) :
    hasKey (eraseKey row k) k = false := by
  simp [hasKey, getEntry_eraseKey_self]

theorem hasKey_eraseKey_ne (row : Row) (k k' : String) (h : k' ≠ k) :
    hasKey (eraseKey row k) k' = hasKey row k' := by
  simp [hasKey, getEntry_eraseKey_ne row k k' h]

theorem hasKey_setField_ne (row : Row) (k k' v : String) (h : k' ≠ k) :
    hasKey (setField row k v) k' = hasKey row k' := by
  simp [hasKey, getEntry_setField_ne row k k' v h]

theorem getField_of_not_hasKey (row : Row) (k : String) (h : hasKey row k = false) :
    getField row k = "" := by
  unfold hasKey at h
  unfold getField
  cases he : getEntry row k with
  | none => rfl
  | some v => rw [he] at h; simp at h

/-! Generic list-counting helpers. -/

theorem countP_filterMap_eq_zero {α β : Type} (l : List α) (f : α → Option β)
    (p : β → Bool) (h : ∀ a b, f a = some b → p b = false) :
    (l.filterMap f).countP p = 0 := by
  induction l with
  | nil => simp
  | cons a rest ih =>
      cases hfa : f a with
      | none => simpa [List.filterMap_cons, hfa] using ih
      | some b => simp [List.filterMap_cons, hfa, List.countP_cons, h a b hfa, ih]

theorem countP_ite_singleton_zero {α : Type} (c : Prop) [Decidable c] (e : α)
    (p : α → Bool) (h : p e = false) :
    ((if c then [e] else []).countP p) = 0 := by
  split <;> simp [h]

theorem countP_ite_singleton {α : Type} (c : Prop) [Decidable c] (e : α)
    (p : α → Bool) (h : p e = true) :
    ((if c then [e] else []).countP p) = if c then 1 else 0 := by
  split <;> simp [h]

/-- C1: the compliance gate isPayrollReady(r) is true exactly when i9_status
is the string "Completed" and e_verify_status is the string "Authorized";
any other combination — including a missing or empty status field — yields
false. -/
theorem claim_C1_compliance_gate :
    (∀ record : Row, isPayrollReady record = true ↔
      (getField record "i9_status" = "Completed" ∧
       getField record "e_verify_status" = "Authorized")) ∧
    (∀ record : Row,
      hasKey record "i9_status" = false ∨ hasKey record "e_verify_status" = false ∨
      getField record "i9_status" = "" ∨ getField record "e_verify_status" = "" →
      isPayrollReady record = false) := by
  constructor
  · intro record
    simp [isPayrollReady, Bool.and_eq_true, beq_iff_eq]
  · intro record h
    have hne : getField record "i9_status" ≠ "Completed" ∨
        getField record "e_verify_status" ≠ "Authorized" := by
      rcases h with h | h | h | h
      · exact Or.inl (by rw [getField_of_not_hasKey record _ h]; decide)
      · exact Or.inr (by rw [getField_of_not_hasKey record _ h]; decide)
      · exact Or.inl (by rw [h]; decide)
      · exact Or.inr (by rw [h]; decide)
    cases hb : isPayrollReady record with
    | false => rfl
    | true =>
        have := (by simpa [isPayrollReady, Bool.and_eq_true, beq_iff_eq] using hb :
          getField record "i9_status" = "Completed" ∧
          getField record "e_verify_status" = "Authorized")
        rcases hne with hne | hne
        · exact absurd this.1 hne
        · exact absurd this.2 hne

theorem claim_C1_compliance_gate_witness :
    isPayrollReady [("i9_status", "Completed"), ("e_verify_status", "Authorized")] = true ∧
    isPayrollReady [("i9_status", "")] = false :=
  ⟨(claim_C1_compliance_gate.1 _).mpr ⟨rfl, rfl⟩,
   claim_C1_compliance_gate.2 _ (Or.inr (Or.inr (Or.inl rfl)))⟩

/-- C10: the numeric check parses only the leading numeric prefix, so values
with trailing non-numeric characters pass: isNumeric accepts "12abc" and
"7xyz", and the validators raise no INVALID_FORMAT error for
annual_salary = "12abc" (employee validator) or record_sequence = "7xyz"
(DET validator). -/
theorem claim_C10_numeric_prefix_accepted :
    parseFloat "12abc" = some 12 ∧ parseFloat "7xyz" = some 7 ∧
    isNumeric "12abc" = true ∧ isNumeric "7xyz" = true ∧
    (validateEmployeeRecord [("annual_salary", "12abc")] 0 []).countP
      (fun e => e.field == "annual_salary" && e.errorType == ErrorType.INVALID_FORMAT) = 0 ∧
    (validateDETRecord [("record_type", "DET"), ("record_sequence", "7xyz")] 0).countP
      (fun e => e.field == "record_sequence" && e.errorType == ErrorType.INVALID_FORMAT) = 0 := by
  refine ⟨by decide, by decide, by decide, by decide, by decide, by decide⟩

/-- C8: the per-paycheck pay-rate derivation divides the parsed annual
salary by the frequency divisor (52, 26, 24, 12; 26 for unrecognized
frequencies), is 0 when the salary fails to parse, and the transformation
formats the result to 2 decimals with half-up rounding; on
annual_salary "120000", pay_frequency "Bi-weekly" it produces "4615.38". -/
theorem claim_C8_per_paycheck_rate :
    (∀ annualSalary payFrequency,
      calculatePerPaycheckRate annualSalary payFrequency =
        match parseFloat annualSalary with
        | none => 0
        | some salary => salary / specDivisor payFrequency) ∧
    (∀ x : Rat, 0 ≤ x → ∃ cents : Nat, toFixed2 x = fmtCents cents ∧
      (cents : Rat) ≤ x * 100 + 1/2 ∧ x * 100 - 1/2 < (cents : Rat)) ∧
    findTransformation adpMapping "PayRate" = some adpPayRate ∧
    adpPayRate "" [("annual_salary", "120000"), ("pay_frequency", "Bi-weekly")] = "4615.38" ∧
    getField (transformToADP [("annual_salary", "120000"), ("pay_frequency", "Bi-weekly")])
      "PayRate" = "4615.38" := by
  refine ⟨?_, ?_, ?_, ?_, ?_⟩
  · intro annualSalary payFrequency
    unfold calculatePerPaycheckRate specDivisor
    cases parseFloat annualSalary with
    | none => rfl
    | some salary => split_ifs <;> rfl
  · intro x hx
    have hnn : ¬(x < 0) := not_lt.mpr hx
    have hfl : (0 : Int) ≤ ⌊x * 100 + 1/2⌋ := Int.le_floor.mpr (by push_cast; linarith)
    have hc : ((Int.toNat ⌊x * 100 + 1/2⌋ : Nat) : Rat) = ((⌊x * 100 + 1/2⌋ : Int) : Rat) := by
      exact_mod_cast congrArg (fun z : Int => (z : Rat)) (Int.toNat_of_nonneg hfl)
    refine ⟨Int.toNat ⌊x * 100 + 1/2⌋, by simp [toFixed2, hnn], ?_, ?_⟩
    · rw [hc]
      exact Int.floor_le _
    · rw [hc]
      have h2 := Int.lt_floor_add_one (x * 100 + 1/2)
      linarith
  · rfl
  · decide
  · decide

theorem claim_C8_per_paycheck_rate_witness :
    (calculatePerPaycheckRate "120000" "Bi-weekly" =
      match parseFloat "120000" with
      | none => 0
      | some salary => salary / specDivisor "Bi-weekly") ∧
    (∃ cents : Nat, toFixed2 ((60000 : Rat) / 13) = fmtCents cents ∧
      (cents : Rat) ≤ (60000 : Rat) / 13 * 100 + 1/2 ∧
      (60000 : Rat) / 13 * 100 - 1/2 < (cents : Rat)) :=
  ⟨claim_C8_per_paycheck_rate.1 "120000" "Bi-weekly",
   claim_C8_per_paycheck_rate.2.1 ((60000 : Rat) / 13) (by positivity)⟩

/-! Normalizer no-op lemmas. -/

theorem addressBlock_eq_of_empty_addr (rowId : String) (rowIndex : Nat)
    (streetKey addrKey cityKey stateKey zipKey message : String)
    (rw : Row × List ProcessingWarning) (h : getField rw.1 addrKey = "") :
    addressBlock rowId rowIndex streetKey addrKey cityKey stateKey zipKey message rw = rw := by
  simp [addressBlock, h, jsTruthy]

theorem nameBlock_eq_of_empty_fullname (rowId : String) (rowIndex : Nat)
    (rw : Row × List ProcessingWarning) (h : getField rw.1 "full_name" = "") :
    nameBlock rowId rowIndex rw = rw := by
  simp [nameBlock, h, jsTruthy]

/-- C7: normalization of an already-canonical row — one containing none of
the combined fields home_address, work_address, full_name — returns the row
unchanged and appends zero warnings. -/
theorem claim_C7_normalizer_noop :
    ∀ (row : Row) (rowIndex : Nat) (warnings : List ProcessingWarning),
      hasKey row "home_address" = false → hasKey row "work_address" = false →
      hasKey row "full_name" = false →
      processMessyData row rowIndex warnings = (row, warnings) := by
  intro row rowIndex warnings h1 h2 h3
  have g1 : getField row "home_address" = "" := getField_of_not_hasKey _ _ h1
  have g2 : getField row "work_address" = "" := getField_of_not_hasKey _ _ h2
  have g3 : getField row "full_name" = "" := getField_of_not_hasKey _ _ h3
  simp only [processMessyData]
  rw [addressBlock_eq_of_empty_addr _ _ "home_street" "home_address" _ _ _ _ _ g1,
      addressBlock_eq_of_empty_addr _ _ "work_street" "work_address" _ _ _ _ _ g2,
      nameBlock_eq_of_empty_fullname _ _ _ g3]

theorem claim_C7_normalizer_noop_witness :
    processMessyData [("employee_id", "E9"), ("first_name", "Ann")] 3 [] =
      ([("employee_id", "E9"), ("first_name", "Ann")], []) :=
  claim_C7_normalizer_noop _ 3 [] (by decide) (by decide) (by decide)

/-! Report helpers. -/

theorem getLast?_append_one {α : Type} (l : List α) (a : α) :
    (l ++ [a]).getLast? = some a :=
  List.getLast?_concat l

theorem jsOr_empty_right (s : String) : jsOr s "" = s := by
  unfold jsOr
  split
  · rename_i h
    simp only [beq_iff_eq] at h
    exact h.symm
  · rfl

/-- C9: the report built by generateErrorReport carries, for every error,
the correctedValue and correctedAt of the latest matching correction — the
last correction in insertion order whose errorId equals the error's id —
and empty strings when no correction matches. -/
theorem claim_C9_latest_correction_reported :
    (∀ (errors : List ProcessingError) (corrections : List ErrorCorrection) (i : Nat),
      (generateErrorReport errors corrections).get? i =
        (errors.get? i).map (fun e => reportRowFor e corrections)) ∧
    (∀ (e : ProcessingError) (pre : List ErrorCorrection) (c : ErrorCorrection)
       (post : List ErrorCorrection),
      c.errorId = e.id → (∀ c2 ∈ post, c2.errorId ≠ e.id) →
      (reportRowFor e (pre ++ c :: post)).correctedValue = c.correctedValue ∧
      (reportRowFor e (pre ++ c :: post)).correctedAt = c.correctedAt) ∧
    (∀ (e : ProcessingError) (corrections : List ErrorCorrection),
      (∀ c2 ∈ corrections, c2.errorId ≠ e.id) →
      (reportRowFor e corrections).correctedValue = "" ∧
      (reportRowFor e corrections).correctedAt = "") := by
  refine ⟨?_, ?_, ?_⟩
  · intro errors corrections i
    simp [generateErrorReport, List.get?_map]
  · intro e pre c post hc hpost
    have hfilter : (pre ++ c :: post).filter (fun c2 => c2.errorId == e.id) =
        pre.filter (fun c2 => c2.errorId == e.id) ++ [c] := by
      rw [List.filter_append, List.filter_cons]
      have hpc : (c.errorId == e.id) = true := by simp [hc]
      rw [if_pos hpc]
      have : post.filter (fun c2 => c2.errorId == e.id) = [] := by
        rw [List.filter_eq_nil]
        intro a ha
        simpa using hpost a ha
      rw [this]
    simp only [reportRowFor]
    rw [hfilter, getLast?_append_one]
    simp [jsOr_empty_right]
  · intro e corrections hnone
    have hfilter : corrections.filter (fun c2 => c2.errorId == e.id) = [] := by
      rw [List.filter_eq_nil]
      intro a ha
      simpa using hnone a ha
    simp only [reportRowFor]
    rw [hfilter]
    simp [jsOr]

theorem claim_C9_latest_correction_reported_witness :
    (reportRowFor ⟨"e1", "r1", 1, "dob", none, "x", ErrorType.INVALID_FORMAT, "m", "s"⟩
      [⟨"e1", "x", "v1", none, "t1", none⟩, ⟨"e1", "x", "v2", none, "t2", none⟩]).correctedValue
      = "v2" ∧
    (reportRowFor ⟨"e1", "r1", 1, "dob", none, "x", ErrorType.INVALID_FORMAT, "m", "s"⟩
      []).correctedValue = "" :=
  ⟨(claim_C9_latest_correction_reported.2.1 _ [⟨"e1", "x", "v1", none, "t1", none⟩]
      ⟨"e1", "x", "v2", none, "t2", none⟩ [] rfl (by simp)).1,
   (claim_C9_latest_correction_reported.2.2 _ [] (by simp)).1⟩

/-! Counting lemmas over the validator blocks. -/

theorem parseFloat_empty : parseFloat "" = none := rfl

theorem countP_ite_nil_singleton_zero {α : Type} (c : Prop) [Decidable c] (e : α)
    (p : α → Bool) (h : p e = false) :
    ((if c then [] else [e]).countP p) = 0 := by
  split <;> simp [h]

theorem countP_requiredEmployeeChecks_zero
    (mk : String → String → ErrorType → String → String → ProcessingError) (record : Row)
    (p : ProcessingError → Bool)
    (hp : ∀ f v m s, p (mk f v ErrorType.REQUIRED_FIELD_MISSING m s) = false) :
    (requiredEmployeeChecks mk record).countP p = 0 := by
  unfold requiredEmployeeChecks
  refine countP_filterMap_eq_zero _ _ _ ?_
  intro a b hab
  revert hab
  split
  · intro hab
    cases hab
    exact hp _ _ _ _
  · intro hab
    cases hab

theorem countP_detStructureChecks_zero
    (mk : String → String → ErrorType → String → String → ProcessingError) (record : Row)
    (p : ProcessingError → Bool)
    (hinv : ∀ f v m s, p (mk f v ErrorType.INVALID_FORMAT m s) = false)
    (hreq : ∀ f v m s, p (mk f v ErrorType.REQUIRED_FIELD_MISSING m s) = false) :
    (detStructureChecks mk record).countP p = 0 := by
  unfold detStructureChecks
  rw [List.countP_append, List.countP_append,
      countP_ite_nil_singleton_zero _ _ _ (hinv _ _ _ _),
      countP_filterMap_eq_zero _ _ _ ?_,
      countP_ite_singleton_zero _ _ _ (hinv _ _ _ _)]
  · intro a b hab
    revert hab
    split
    · intro hab
      cases hab
      exact hreq _ _ _ _
    · intro hab
      cases hab

theorem countP_ddSplitChecks_zero
    (mk : String → String → ErrorType → String → String → ProcessingError) (record : Row)
    (p : ProcessingError → Bool)
    (hbl : ∀ f v m s, p (mk f v ErrorType.BUSINESS_LOGIC_ERROR m s) = false) :
    (ddSplitChecks mk record).countP p = 0 := by
  unfold ddSplitChecks
  split
  · rw [List.countP_append]
    refine Nat.add_eq_zero.mpr ⟨?_, ?_⟩
    · cases parseFloat (getField record "dd1_split_value") with
      | none => simp [hbl]
      | some percent => split <;> simp [hbl]
    · split
      · cases parseFloat (getField record "dd1_split_value") with
        | none => cases parseFloat (getField record "dd2_split_value") <;> simp
        | some q1 =>
            cases parseFloat (getField record "dd2_split_value") with
            | none => simp
            | some q2 => split <;> simp [hbl]
      · rfl
  · rfl

theorem countP_isBL_invalid_piece
    (mk : String → String → ErrorType → String → String → ProcessingError)
    (hmk : ∀ f v t m s, (mk f v t m s).errorType = t)
    (c : Prop) [Decidable c] (f v m s : String) :
    ((if c then [mk f v ErrorType.INVALID_FORMAT m s] else []).countP isBLErr) = 0 :=
  countP_ite_singleton_zero _ _ _ (by simp [isBLErr, hmk])

theorem countP_isBL_formatChecks
    (mk : String → String → ErrorType → String → String → ProcessingError)
    (hmk : ∀ f v t m s, (mk f v t m s).errorType = t)
    (record : Row) (p1 p2 : Rat)
    (h1t : getField record "dd1_split_type" = "Percent")
    (h2t : getField record "dd2_split_type" = "Percent")
    (h1 : parseFloat (getField record "dd1_split_value") = some p1)
    (h2 : parseFloat (getField record "dd2_split_value") = some p2)
    (h1l : 0 ≤ p1) (h1u : p1 ≤ 100) :
    (formatAndBusinessChecks mk record).countP isBLErr =
      if |p1 + p2 - 100| > 1/100 then 1 else 0 := by
  have hv1 : ¬(getField record "dd1_split_value" = "") := by
    intro h
    rw [h, parseFloat_empty] at h1
    exact Option.noConfusion h1
  have hv2 : ¬(getField record "dd2_split_value" = "") := by
    intro h
    rw [h, parseFloat_empty] at h2
    exact Option.noConfusion h2
  have hr : ¬(p1 < 0 ∨ p1 > 100) := not_or.mpr ⟨not_lt.mpr h1l, not_lt.mpr h1u⟩
  have hb1 : (getField record "dd1_split_value" == "") = false := beq_eq_false_iff_ne.mpr hv1
  have hb2 : (getField record "dd2_split_value" == "") = false := beq_eq_false_iff_ne.mpr hv2
  simp only [formatAndBusinessChecks, ddSplitChecks, List.countP_append,
    countP_isBL_invalid_piece mk hmk, h1t, h2t, h1, h2, jsTruthy, hb1,
    decide_eq_false hr]
  simp only [hb2, beq_self_eq_true, Bool.not_false, Bool.and_self, if_true,
    Bool.false_eq_true, if_false, List.nil_append, List.append_nil, decide_eq_true_eq,
    List.countP_nil, Nat.zero_add, Nat.add_zero]
  split <;> simp [isBLErr, hmk]

theorem countP_isBL_validateEmployeeRecord
    (record : Row) (rowIndex : Nat) (headerFields : List String) (p1 p2 : Rat)
    (h1t : getField record "dd1_split_type" = "Percent")
    (h2t : getField record "dd2_split_type" = "Percent")
    (h1 : parseFloat (getField record "dd1_split_value") = some p1)
    (h2 : parseFloat (getField record "dd2_split_value") = some p2)
    (h1l : 0 ≤ p1) (h1u : p1 ≤ 100) :
    (validateEmployeeRecord record rowIndex headerFields).countP isBLErr =
      if |p1 + p2 - 100| > 1/100 then 1 else 0 := by
  simp only [validateEmployeeRecord, List.countP_append]
  rw [countP_requiredEmployeeChecks_zero _ _ _ (fun f v m s => by simp [isBLErr, mkError]),
      countP_isBL_formatChecks _ (fun f v t m s => rfl) record p1 p2 h1t h2t h1 h2 h1l h1u]
  simp

theorem countP_isBL_validateDETRecord
    (record : Row) (rowIndex : Nat) (p1 p2 : Rat)
    (h1t : getField record "dd1_split_type" = "Percent")
    (h2t : getField record "dd2_split_type" = "Percent")
    (h1 : parseFloat (getField record "dd1_split_value") = some p1)
    (h2 : parseFloat (getField record "dd2_split_value") = some p2)
    (h1l : 0 ≤ p1) (h1u : p1 ≤ 100) :
    (validateDETRecord record rowIndex).countP isBLErr =
      if |p1 + p2 - 100| > 1/100 then 1 else 0 := by
  simp only [validateDETRecord, List.countP_append]
  rw [countP_detStructureChecks_zero _ _ _ (fun f v m s => by simp [isBLErr, mkError])
        (fun f v m s => by simp [isBLErr, mkError]),
      countP_requiredEmployeeChecks_zero _ _ _ (fun f v m s => by simp [isBLErr, mkError]),
      countP_isBL_formatChecks _ (fun f v t m s => rfl) record p1 p2 h1t h2t h1 h2 h1l h1u]
  simp

/-- C2: with both split types Percent and numeric in-range split values,
both validators emit exactly one BUSINESS_LOGIC_ERROR (the split-sum rule)
when abs(p1 + p2 - 100) > 0.01 and none otherwise; the scenario-A row
(60 + 45) yields exactly one BUSINESS_LOGIC_ERROR, on dd1_split_value,
whose message cites the 105% total. -/
theorem claim_C2_split_sum_rule :
    (∀ (record : Row) (rowIndex : Nat) (headerFields : List String) (p1 p2 : Rat),
      getField record "dd1_split_type" = "Percent" →
      getField record "dd2_split_type" = "Percent" →
      parseFloat (getField record "dd1_split_value") = some p1 →
      parseFloat (getField record "dd2_split_value") = some p2 →
      0 ≤ p1 → p1 ≤ 100 → 0 ≤ p2 → p2 ≤ 100 →
      (validateEmployeeRecord record rowIndex headerFields).countP isBLErr =
          (if |p1 + p2 - 100| > 1/100 then 1 else 0) ∧
        (validateDETRecord record rowIndex).countP isBLErr =
          (if |p1 + p2 - 100| > 1/100 then 1 else 0)) ∧
    ((validateEmployeeRecord rowScenarioA 0 []).filter isBLErr).map
        (fun e => (e.field, e.value, e.errorType, e.message)) =
      [("dd1_split_value", "60 + 45", ErrorType.BUSINESS_LOGIC_ERROR,
        "Direct deposit split percentages must sum to 100%, got: 105%")] := by
  refine ⟨?_, by decide⟩
  intro record rowIndex headerFields p1 p2 h1t h2t h1 h2 h1l h1u h2l h2u
  exact ⟨countP_isBL_validateEmployeeRecord record rowIndex headerFields p1 p2
           h1t h2t h1 h2 h1l h1u,
         countP_isBL_validateDETRecord record rowIndex p1 p2 h1t h2t h1 h2 h1l h1u⟩

theorem claim_C2_split_sum_rule_witness :
    (validateEmployeeRecord rowScenarioA 0 []).countP isBLErr =
        (if |(60 : Rat) + 45 - 100| > 1/100 then 1 else 0) ∧
      (validateDETRecord rowScenarioA 0).countP isBLErr =
        (if |(60 : Rat) + 45 - 100| > 1/100 then 1 else 0) :=
  claim_C2_split_sum_rule.1 rowScenarioA 0 [] 60 45 (by decide) (by decide) (by decide)
    (by decide) (by decide) (by decide) (by decide) (by decide)

/-! Counting lemmas for the dob date-format rule. -/

theorem countP_dob_invalid_piece
    (mk : String → String → ErrorType → String → String → ProcessingError)
    (hmk_f : ∀ f v t m s, (mk f v t m s).field = f)
    (hmk_t : ∀ f v t m s, (mk f v t m s).errorType = t)
    (c : Prop) [Decidable c] (f v m s : String) :
    ((if c then [mk f v ErrorType.INVALID_FORMAT m s] else []).countP isDobFormatErr) =
      if c ∧ f = "dob" then 1 else 0 := by
  by_cases hf : f = "dob"
  · rw [countP_ite_singleton _ _ _
        (show isDobFormatErr (mk f v .INVALID_FORMAT m s) = true by
          simp [isDobFormatErr, hmk_f, hmk_t, hf])]
    simp [hf]
  · rw [countP_ite_singleton_zero _ _ _
        (show isDobFormatErr (mk f v .INVALID_FORMAT m s) = false by
          simp [isDobFormatErr, hmk_f, hmk_t, hf])]
    simp [hf]

theorem countP_dob_formatChecks
    (mk : String → String → ErrorType → String → String → ProcessingError)
    (hmk_f : ∀ f v t m s, (mk f v t m s).field = f)
    (hmk_t : ∀ f v t m s, (mk f v t m s).errorType = t)
    (record : Row) (hdob : getField record "dob" ≠ "") :
    (formatAndBusinessChecks mk record).countP isDobFormatErr =
      if isValidDate (getField record "dob") then 0 else 1 := by
  have hbd : (getField record "dob" == "") = false := beq_eq_false_iff_ne.mpr hdob
  simp only [formatAndBusinessChecks, List.countP_append,
    countP_dob_invalid_piece mk hmk_f hmk_t,
    countP_ddSplitChecks_zero mk record isDobFormatErr
      (fun f v m s => by simp [isDobFormatErr, hmk_t])]
  simp only [jsTruthy, hbd, Bool.not_false, Bool.true_and, String.reduceEq, and_false,
    if_false, and_true, Nat.add_zero, Nat.zero_add]
  cases hval : isValidDate (getField record "dob") <;> simp [hval]

theorem countP_dob_validateEmployeeRecord
    (record : Row) (rowIndex : Nat) (headerFields : List String)
    (hdob : getField record "dob" ≠ "") :
    (validateEmployeeRecord record rowIndex headerFields).countP isDobFormatErr =
      if isValidDate (getField record "dob") then 0 else 1 := by
  simp only [validateEmployeeRecord, List.countP_append]
  rw [countP_requiredEmployeeChecks_zero _ _ _ (fun f v m s => by simp [isDobFormatErr, mkError]),
      countP_dob_formatChecks _ (fun f v t m s => rfl) (fun f v t m s => rfl) record hdob]
  simp

/-- C6: for a non-empty dob, the employee validator emits exactly one
INVALID_FORMAT error on dob iff the value fails the dashed 4-2-2 pattern or
is not a calendar-valid date; on the otherwise-valid scenario-E record with
dob "13/45/2025" the full error list is that single INVALID_FORMAT error,
with the original malformed string preserved in its value. -/
theorem claim_C6_dob_format_error :
    (∀ (record : Row) (rowIndex : Nat) (headerFields : List String),
      getField record "dob" ≠ "" →
      (validateEmployeeRecord record rowIndex headerFields).countP isDobFormatErr =
        if isValidDate (getField record "dob") then 0 else 1) ∧
    (validateEmployeeRecord rowScenarioE 0 []).map (fun e => (e.field, e.errorType, e.value)) =
      [("dob", ErrorType.INVALID_FORMAT, "13/45/2025")] :=
  ⟨countP_dob_validateEmployeeRecord, by decide⟩

theorem claim_C6_dob_format_error_witness :
    (validateEmployeeRecord rowScenarioE 0 []).countP isDobFormatErr =
      (if isValidDate (getField rowScenarioE "dob") then 0 else 1) :=
  claim_C6_dob_format_error.1 rowScenarioE 0 [] (by decide)

/-! Promotion behavior of the processCSV step. -/

theorem stepCSV_skip (rowNumber : Nat) (row : Row) (acc : CSVResult)
    (h : jsToUpper (getField row "record_type") ≠ "DET") :
    stepCSV rowNumber row acc = acc := by
  have hb : (jsToUpper (getField row "record_type") == "DET") = false :=
    beq_eq_false_iff_ne.mpr h
  simp [stepCSV, hb]

theorem stepCSV_det_lengths (rowNumber : Nat) (row : Row) (acc : CSVResult)
    (h : jsToUpper (getField row "record_type") = "DET") :
    (stepCSV rowNumber row acc).detRecords.length = acc.detRecords.length + 1 ∧
      (stepCSV rowNumber row acc).rows.length = acc.rows.length + 1 := by
  have hb : (jsToUpper (getField row "record_type") == "DET") = true := by simp [h]
  simp [stepCSV, hb]

theorem runCSV_counts (rs : List Row) : ∀ (n : Nat) (acc : CSVResult),
    (runCSV n rs acc).detRecords.length =
      acc.detRecords.length +
        rs.countP (fun row => jsToUpper (getField row "record_type") == "DET") ∧
    (runCSV n rs acc).rows.length =
      acc.rows.length +
        rs.countP (fun row => jsToUpper (getField row "record_type") == "DET") := by
  induction rs with
  | nil => intro n acc; simp [runCSV]
  | cons row rest ih =>
      intro n acc
      rw [runCSV]
      by_cases h : jsToUpper (getField row "record_type") = "DET"
      · have hb : (jsToUpper (getField row "record_type") == "DET") = true := by simp [h]
        obtain ⟨hd, hr⟩ := stepCSV_det_lengths n row acc h
        obtain ⟨ihd, ihr⟩ := ih (n + 1) (stepCSV n row acc)
        rw [List.countP_cons_of_pos (fun row => jsToUpper (getField row "record_type") == "DET") _ hb]
        constructor
        · rw [ihd, hd]; omega
        · rw [ihr, hr]; omega
      · have hb : (jsToUpper (getField row "record_type") == "DET") = false :=
          beq_eq_false_iff_ne.mpr h
        rw [List.countP_cons_of_neg (fun row => jsToUpper (getField row "record_type") == "DET") _
              (by simp [hb]), stepCSV_skip n row acc h]
        exact ih (n + 1) acc

theorem runCSV_all_skip (rs : List Row) : ∀ (n : Nat) (acc : CSVResult),
    (∀ row ∈ rs, jsToUpper (getField row "record_type") ≠ "DET") →
    runCSV n rs acc = acc := by
  induction rs with
  | nil => intro n acc _; rfl
  | cons row rest ih =>
      intro n acc hall
      rw [runCSV, stepCSV_skip n row acc (hall row (by simp))]
      exact ih (n + 1) acc (fun r hr => hall r (by simp [hr]))

/-- C4 counterexample: a row whose record_type is the lower-case string
"det" does not equal the detail marker "DET", yet processCSV promotes it
(the code upper-cases the discriminator before comparing). -/
theorem claim_C4_det_promotion_counterexample :
    getField rowLowercaseDet "record_type" ≠ "DET" ∧
    (processCSVRows [rowLowercaseDet]).detRecords.length = 1 ∧
    (processCSVRows [rowLowercaseDet]).rows.length = 1 := by
  refine ⟨by decide, by decide, by decide⟩

/-- C4 (amended): processCSV promotes a parsed row into the detail/employee
sequences if and only if its upper-cased record_type equals the detail
marker "DET" (a case-insensitive match); every other row leaves the
accumulated state untouched — excluded silently, with no parse error and no
warning added. -/
theorem claim_C4_det_promotion_amended :
    (∀ (rowNumber : Nat) (row : Row) (acc : CSVResult),
      jsToUpper (getField row "record_type") ≠ "DET" → stepCSV rowNumber row acc = acc) ∧
    (∀ (rowNumber : Nat) (row : Row) (acc : CSVResult),
      jsToUpper (getField row "record_type") = "DET" →
      (stepCSV rowNumber row acc).detRecords.length = acc.detRecords.length + 1 ∧
        (stepCSV rowNumber row acc).rows.length = acc.rows.length + 1) ∧
    (∀ rs : List Row,
      (processCSVRows rs).detRecords.length =
          rs.countP (fun row => jsToUpper (getField row "record_type") == "DET") ∧
        (processCSVRows rs).rows.length =
          rs.countP (fun row => jsToUpper (getField row "record_type") == "DET")) ∧
    (∀ rs : List Row, (∀ row ∈ rs, jsToUpper (getField row "record_type") ≠ "DET") →
      (processCSVRows rs).errors = [] ∧ (processCSVRows rs).warnings = []) := by
  refine ⟨stepCSV_skip, stepCSV_det_lengths, ?_, ?_⟩
  · intro rs
    have h := runCSV_counts rs 1 ⟨[], [], [], []⟩
    simpa [processCSVRows] using h
  · intro rs hall
    have h := runCSV_all_skip rs 1 ⟨[], [], [], []⟩ hall
    rw [processCSVRows, h]
    exact ⟨rfl, rfl⟩

theorem claim_C4_det_promotion_amended_witness :
    stepCSV 1 [("record_type", "HDR")] ⟨[], [], [], []⟩ = ⟨[], [], [], []⟩ ∧
    (stepCSV 1 rowLowercaseDet ⟨[], [], [], []⟩).detRecords.length = 1 ∧
    (processCSVRows [[("record_type", "HDR")]]).errors = [] :=
  ⟨claim_C4_det_promotion_amended.1 1 _ _ (by decide),
   (claim_C4_det_promotion_amended.2.1 1 rowLowercaseDet _ (by decide)).1,
   (claim_C4_det_promotion_amended.2.2.2 _ (by decide)).1⟩

/-! Messy-data normalizer: behavior of the combined home-address rule. -/

theorem addressBlock_fires_some (rowId : String) (rowIndex : Nat)
    (streetKey addrKey cityKey stateKey zipKey message : String)
    (rw : Row × List ProcessingWarning) (a : ParsedAddress)
    (hs : getField rw.1 streetKey = "") (ha : getField rw.1 addrKey ≠ "")
    (hp : parseAddress (getField rw.1 addrKey) = some a) :
    addressBlock rowId rowIndex streetKey addrKey cityKey stateKey zipKey message rw =
      (eraseKey (setField (setField (setField (setField rw.1 streetKey a.street)
          cityKey a.city) stateKey a.state) zipKey a.zip) addrKey,
       rw.2 ++ [⟨rowId, rowIndex, addrKey, getField rw.1 addrKey, message⟩]) := by
  have hab : (getField rw.1 addrKey == "") = false := beq_eq_false_iff_ne.mpr ha
  simp [addressBlock, jsTruthy, hs, hab, hp]

theorem addressBlock_fires_none (rowId : String) (rowIndex : Nat)
    (streetKey addrKey cityKey stateKey zipKey message : String)
    (rw : Row × List ProcessingWarning)
    (hs : getField rw.1 streetKey = "") (ha : getField rw.1 addrKey ≠ "")
    (hp : parseAddress (getField rw.1 addrKey) = none) :
    addressBlock rowId rowIndex streetKey addrKey cityKey stateKey zipKey message rw =
      (eraseKey rw.1 addrKey, rw.2) := by
  have hab : (getField rw.1 addrKey == "") = false := beq_eq_false_iff_ne.mpr ha
  simp [addressBlock, jsTruthy, hs, hab, hp]

theorem addressBlock_foreign_getField (rowId : String) (rowIndex : Nat)
    (streetKey addrKey cityKey stateKey zipKey message : String)
    (rw : Row × List ProcessingWarning) (k : String)
    (h1 : k ≠ streetKey) (h2 : k ≠ cityKey) (h3 : k ≠ stateKey) (h4 : k ≠ zipKey)
    (h5 : k ≠ addrKey) :
    getField (addressBlock rowId rowIndex streetKey addrKey cityKey stateKey zipKey message rw).1 k =
      getField rw.1 k := by
  simp only [addressBlock]
  split
  · cases hp : parseAddress (getField rw.1 addrKey) with
    | some parsed =>
        simp only [getField_eraseKey_ne _ _ _ h5, getField_setField_ne _ _ _ _ h4,
          getField_setField_ne _ _ _ _ h3, getField_setField_ne _ _ _ _ h2,
          getField_setField_ne _ _ _ _ h1]
    | none => simp only [getField_eraseKey_ne _ _ _ h5]
  · rfl

theorem addressBlock_foreign_hasKey (rowId : String) (rowIndex : Nat)
    (streetKey addrKey cityKey stateKey zipKey message : String)
    (rw : Row × List ProcessingWarning) (k : String)
    (h1 : k ≠ streetKey) (h2 : k ≠ cityKey) (h3 : k ≠ stateKey) (h4 : k ≠ zipKey)
    (h5 : k ≠ addrKey) :
    hasKey (addressBlock rowId rowIndex streetKey addrKey cityKey stateKey zipKey message rw).1 k =
      hasKey rw.1 k := by
  simp only [addressBlock]
  split
  · cases hp : parseAddress (getField rw.1 addrKey) with
    | some parsed =>
        simp only [hasKey_eraseKey_ne _ _ _ h5, hasKey_setField_ne _ _ _ _ h4,
          hasKey_setField_ne _ _ _ _ h3, hasKey_setField_ne _ _ _ _ h2,
          hasKey_setField_ne _ _ _ _ h1]
    | none => simp only [hasKey_eraseKey_ne _ _ _ h5]
  · rfl

theorem addressBlock_warnings_countP (rowId : String) (rowIndex : Nat)
    (streetKey addrKey cityKey stateKey zipKey message : String)
    (rw : Row × List ProcessingWarning) (q : ProcessingWarning → Bool)
    (hq : ∀ v, q ⟨rowId, rowIndex, addrKey, v, message⟩ = false) :
    ((addressBlock rowId rowIndex streetKey addrKey cityKey stateKey zipKey message rw).2).countP q =
      rw.2.countP q := by
  simp only [addressBlock]
  split
  · cases hp : parseAddress (getField rw.1 addrKey) with
    | some parsed => simp [List.countP_append, hq]
    | none => rfl
  · rfl

theorem nameBlock_foreign_getField (rowId : String) (rowIndex : Nat)
    (rw : Row × List ProcessingWarning) (k : String)
    (h1 : k ≠ "first_name") (h2 : k ≠ "last_name") (h3 : k ≠ "full_name") :
    getField (nameBlock rowId rowIndex rw).1 k = getField rw.1 k := by
  simp only [nameBlock]
  split
  · split
    · simp only [getField_eraseKey_ne _ _ _ h3, getField_setField_ne _ _ _ _ h2,
        getField_setField_ne _ _ _ _ h1]
    · simp only [getField_eraseKey_ne _ _ _ h3]
  · rfl

theorem nameBlock_foreign_hasKey (rowId : String) (rowIndex : Nat)
    (rw : Row × List ProcessingWarning) (k : String)
    (h1 : k ≠ "first_name") (h2 : k ≠ "last_name") (h3 : k ≠ "full_name") :
    hasKey (nameBlock rowId rowIndex rw).1 k = hasKey rw.1 k := by
  simp only [nameBlock]
  split
  · split
    · simp only [hasKey_eraseKey_ne _ _ _ h3, hasKey_setField_ne _ _ _ _ h2,
        hasKey_setField_ne _ _ _ _ h1]
    · simp only [hasKey_eraseKey_ne _ _ _ h3]
  · rfl

theorem nameBlock_warnings_countP (rowId : String) (rowIndex : Nat)
    (rw : Row × List ProcessingWarning) (q : ProcessingWarning → Bool)
    (hq : ∀ v, q ⟨rowId, rowIndex, "full_name", v,
      "Combined name field split into first_name and last_name"⟩ = false) :
    ((nameBlock rowId rowIndex rw).2).countP q = rw.2.countP q := by
  simp only [nameBlock]
  split
  · split
    · simp [List.countP_append, hq]
    · rfl
  · rfl

/-- C5 counterexample: a row whose home_address key is present but holds the
empty string — the claim's premise "home_street empty and home_address
present" holds, yet normalization does not remove the home_address key (the
delete sits inside the truthiness guard, which an empty string fails). -/
theorem claim_C5_home_address_counterexample :
    getField rowEmptyHomeAddress "home_street" = "" ∧
    hasKey rowEmptyHomeAddress "home_address" = true ∧
    hasKey (processMessyData rowEmptyHomeAddress 1 []).1 "home_address" = true := by
  refine ⟨by decide, by decide, by decide⟩

/-- C5 (amended): for a row whose home_street is empty and whose
home_address is present with a non-empty value, normalization removes the
home_address key regardless of parse success; on parse success the four
home sub-fields are populated from the parsed components and exactly one
home_address warning is appended; on parse failure no sub-field is set and
no warning is appended.  Scenario B behaves exactly as specified. -/
theorem claim_C5_home_address_amended :
    (∀ (row : Row) (rowIndex : Nat) (warnings : List ProcessingWarning),
      getField row "home_street" = "" → getField row "home_address" ≠ "" →
      hasKey (processMessyData row rowIndex warnings).1 "home_address" = false ∧
      (∀ a : ParsedAddress, parseAddress (getField row "home_address") = some a →
        getField (processMessyData row rowIndex warnings).1 "home_street" = a.street ∧
        getField (processMessyData row rowIndex warnings).1 "home_city" = a.city ∧
        getField (processMessyData row rowIndex warnings).1 "home_state" = a.state ∧
        getField (processMessyData row rowIndex warnings).1 "home_zip" = a.zip ∧
        ((processMessyData row rowIndex warnings).2).countP isHomeAddressWarning =
          warnings.countP isHomeAddressWarning + 1) ∧
      (parseAddress (getField row "home_address") = none →
        ((processMessyData row rowIndex warnings).2).countP isHomeAddressWarning =
          warnings.countP isHomeAddressWarning ∧
        getField (processMessyData row rowIndex warnings).1 "home_street" = "" ∧
        getField (processMessyData row rowIndex warnings).1 "home_city" = getField row "home_city" ∧
        getField (processMessyData row rowIndex warnings).1 "home_state" = getField row "home_state" ∧
        getField (processMessyData row rowIndex warnings).1 "home_zip" = getField row "home_zip")) ∧
    ((processMessyData rowScenarioB 1 []).1 =
        [("employee_id", "E1"), ("home_street", "123 Main St"), ("home_city", "Hanahan"),
         ("home_state", "SC"), ("home_zip", "29410")] ∧
      (processMessyData rowScenarioB 1 []).2.length = 1 ∧
      hasKey (processMessyData rowScenarioB 1 []).1 "home_address" = false) := by
  refine ⟨?_, by decide, by decide, by decide⟩
  intro row rowIndex warnings hs ha
  simp only [processMessyData]
  have hs' : getField (row, warnings).1 "home_street" = "" := hs
  have ha' : getField (row, warnings).1 "home_address" ≠ "" := ha
  refine ⟨?_, ?_, ?_⟩
  · cases hp : parseAddress (getField row "home_address") with
    | some a =>
        have hp' : parseAddress (getField (row, warnings).1 "home_address") = some a := hp
        rw [addressBlock_fires_some _ rowIndex "home_street" "home_address" "home_city"
              "home_state" "home_zip" _ (row, warnings) a hs' ha' hp']
        rw [nameBlock_foreign_hasKey _ _ _ "home_address" (by decide) (by decide) (by decide)]
        rw [addressBlock_foreign_hasKey _ _ "work_street" "work_address" "work_city"
              "work_state" "work_zip" _ _ "home_address" (by decide) (by decide) (by decide)
              (by decide) (by decide)]
        exact hasKey_eraseKey_self _ _
    | none =>
        have hp' : parseAddress (getField (row, warnings).1 "home_address") = none := hp
        rw [addressBlock_fires_none _ rowIndex "home_street" "home_address" "home_city"
              "home_state" "home_zip" _ (row, warnings) hs' ha' hp']
        rw [nameBlock_foreign_hasKey _ _ _ "home_address" (by decide) (by decide) (by decide)]
        rw [addressBlock_foreign_hasKey _ _ "work_street" "work_address" "work_city"
              "work_state" "work_zip" _ _ "home_address" (by decide) (by decide) (by decide)
              (by decide) (by decide)]
        exact hasKey_eraseKey_self _ _
  · intro a hp
    have hp' : parseAddress (getField (row, warnings).1 "home_address") = some a := hp
    rw [addressBlock_fires_some _ rowIndex "home_street" "home_address" "home_city"
          "home_state" "home_zip" _ (row, warnings) a hs' ha' hp']
    refine ⟨?_, ?_, ?_, ?_, ?_⟩
    · rw [nameBlock_foreign_getField _ _ _ "home_street" (by decide) (by decide) (by decide)]
      rw [addressBlock_foreign_getField _ _ "work_street" "work_address" "work_city"
            "work_state" "work_zip" _ _ "home_street" (by decide) (by decide) (by decide)
            (by decide) (by decide)]
      rw [getField_eraseKey_ne _ "home_address" "home_street" (by decide),
          getField_setField_ne _ "home_zip" "home_street" _ (by decide),
          getField_setField_ne _ "home_state" "home_street" _ (by decide),
          getField_setField_ne _ "home_city" "home_street" _ (by decide),
          getField_setField_self]
    · rw [nameBlock_foreign_getField _ _ _ "home_city" (by decide) (by decide) (by decide)]
      rw [addressBlock_foreign_getField _ _ "work_street" "work_address" "work_city"
            "work_state" "work_zip" _ _ "home_city" (by decide) (by decide) (by decide)
            (by decide) (by decide)]
      rw [getField_eraseKey_ne _ "home_address" "home_city" (by decide),
          getField_setField_ne _ "home_zip" "home_city" _ (by decide),
          getField_setField_ne _ "home_state" "home_city" _ (by decide),
          getField_setField_self]
    · rw [nameBlock_foreign_getField _ _ _ "home_state" (by decide) (by decide) (by decide)]
      rw [addressBlock_foreign_getField _ _ "work_street" "work_address" "work_city"
            "work_state" "work_zip" _ _ "home_state" (by decide) (by decide) (by decide)
            (by decide) (by decide)]
      rw [getField_eraseKey_ne _ "home_address" "home_state" (by decide),
          getField_setField_ne _ "home_zip" "home_state" _ (by decide),
          getField_setField_self]
    · rw [nameBlock_foreign_getField _ _ _ "home_zip" (by decide) (by decide) (by decide)]
      rw [addressBlock_foreign_getField _ _ "work_street" "work_address" "work_city"
            "work_state" "work_zip" _ _ "home_zip" (by decide) (by decide) (by decide)
            (by decide) (by decide)]
      rw [getField_eraseKey_ne _ "home_address" "home_zip" (by decide),
          getField_setField_self]
    · rw [nameBlock_warnings_countP _ _ _ isHomeAddressWarning
            (by intro v; simp [isHomeAddressWarning])]
      rw [addressBlock_warnings_countP _ _ "work_street" "work_address" "work_city"
            "work_state" "work_zip" _ _ isHomeAddressWarning
            (by intro v; simp [isHomeAddressWarning])]
      simp [List.countP_append, isHomeAddressWarning]
  · intro hp
    have hp' : parseAddress (getField (row, warnings).1 "home_address") = none := hp
    rw [addressBlock_fires_none _ rowIndex "home_street" "home_address" "home_city"
          "home_state" "home_zip" _ (row, warnings) hs' ha' hp']
    refine ⟨?_, ?_, ?_, ?_, ?_⟩
    · rw [nameBlock_warnings_countP _ _ _ isHomeAddressWarning
            (by intro v; simp [isHomeAddressWarning])]
      rw [addressBlock_warnings_countP _ _ "work_street" "work_address" "work_city"
            "work_state" "work_zip" _ _ isHomeAddressWarning
            (by intro v; simp [isHomeAddressWarning])]
    · rw [nameBlock_foreign_getField _ _ _ "home_street" (by decide) (by decide) (by decide)]
      rw [addressBlock_foreign_getField _ _ "work_street" "work_address" "work_city"
            "work_state" "work_zip" _ _ "home_street" (by decide) (by decide) (by decide)
            (by decide) (by decide)]
      rw [getField_eraseKey_ne _ "home_address" "home_street" (by decide)]
      exact hs
    · rw [nameBlock_foreign_getField _ _ _ "home_city" (by decide) (by decide) (by decide)]
      rw [addressBlock_foreign_getField _ _ "work_street" "work_address" "work_city"
            "work_state" "work_zip" _ _ "home_city" (by decide) (by decide) (by decide)
            (by decide) (by decide)]
      exact getField_eraseKey_ne _ "home_address" "home_city" (by decide)
    · rw [nameBlock_foreign_getField _ _ _ "home_state" (by decide) (by decide) (by decide)]
      rw [addressBlock_foreign_getField _ _ "work_street" "work_address" "work_city"
            "work_state" "work_zip" _ _ "home_state" (by decide) (by decide) (by decide)
            (by decide) (by decide)]
      exact getField_eraseKey_ne _ "home_address" "home_state" (by decide)
    · rw [nameBlock_foreign_getField _ _ _ "home_zip" (by decide) (by decide) (by decide)]
      rw [addressBlock_foreign_getField _ _ "work_street" "work_address" "work_city"
            "work_state" "work_zip" _ _ "home_zip" (by decide) (by decide) (by decide)
            (by decide) (by decide)]
      exact getField_eraseKey_ne _ "home_address" "home_zip" (by decide)

theorem claim_C5_home_address_amended_witness :
    hasKey (processMessyData rowScenarioB 1 []).1 "home_address" = false ∧
    getField (processMessyData rowScenarioB 1 []).1 "home_street" = "123 Main St" :=
  ⟨(claim_C5_home_address_amended.1 rowScenarioB 1 [] (by decide) (by decide)).1,
   ((claim_C5_home_address_amended.1 rowScenarioB 1 [] (by decide) (by decide)).2.1
      ⟨"123 Main St", "Hanahan", "SC", "29410"⟩ (by decide)).1⟩

/-! Transformation engine: first- and second-pass characterizations. -/

theorem find?_append {α : Type} (l1 l2 : List α) (p : α → Bool) :
    (l1 ++ l2).find? p = (l1.find? p).orElse (fun _ => l2.find? p) := by
  induction l1 with
  | nil => simp
  | cons a rest ih =>
      cases h : p a with
      | true => simp [List.find?, h]
      | false => simp [List.find?, h, ih]

theorem find?_eq_none_of_not_mem_keys {β : Type} (l : List (String × β)) (t : String)
    (h : t ∉ l.map Prod.fst) : l.find? (fun kv => kv.1 == t) = none := by
  rw [List.find?_eq_none]
  intro kv hkv
  simp only [beq_iff_eq]
  intro he
  exact h (he ▸ List.mem_map_of_mem Prod.fst hkv)

theorem getField_firstPass_foldl (m : ProviderMapping) (employee : Row) :
    ∀ (fms : List FieldMapping) (out : Row) (t : String),
      getField (fms.foldl (fun o fm => setField o fm.targetField (firstPassValue m employee fm)) out) t =
        match fms.reverse.find? (fun fm => fm.targetField == t) with
        | some fm => firstPassValue m employee fm
        | none => getField out t := by
  intro fms
  induction fms with
  | nil => intro out t; simp
  | cons fm rest ih =>
      intro out t
      rw [List.foldl_cons, ih, List.reverse_cons, find?_append]
      cases hfind : rest.reverse.find? (fun fm2 => fm2.targetField == t) with
      | some fm2 => rfl
      | none =>
          simp only [Option.orElse_none, Option.none_orElse]
          cases hb : (fm.targetField == t) with
          | true =>
              have ht : t = fm.targetField := (beq_iff_eq.mp hb).symm
              simp [List.find?, hb, ht, getField_setField_self]
          | false =>
              have ht : t ≠ fm.targetField := fun he => by simp [he] at hb
              simp [List.find?, hb, getField_setField_ne _ _ _ _ ht]

theorem getField_secondPass_foldl (employee : Row) :
    ∀ (ts : List (String × (String → Row → String))) (out : Row) (t : String),
      (ts.map Prod.fst).Nodup →
      getField (ts.foldl (fun o kv =>
          if jsTruthy (getField o kv.1) then o else setField o kv.1 (kv.2 "" employee)) out) t =
        match ts.find? (fun kv => kv.1 == t) with
        | some kv => if getField out t = "" then kv.2 "" employee else getField out t
        | none => getField out t := by
  intro ts
  induction ts with
  | nil => intro out t _; simp
  | cons kv rest ih =>
      intro out t hnd
      rw [List.map_cons] at hnd
      obtain ⟨hnm, hnd2⟩ := List.nodup_cons.mp hnd
      rw [List.foldl_cons, ih _ _ hnd2]
      by_cases ht : kv.1 = t
      · subst ht
        rw [find?_eq_none_of_not_mem_keys rest kv.1 hnm]
        have hb : (kv.1 == kv.1) = true := by simp
        simp only [List.find?, hb]
        by_cases he : getField out kv.1 = ""
        · have : jsTruthy (getField out kv.1) = false := by simp [jsTruthy, he]
          rw [this]
          simp [he, getField_setField_self]
        · have : jsTruthy (getField out kv.1) = true := by simp [jsTruthy, he]
          rw [this]
          simp [he]
      · have hb : (kv.1 == t) = false := by simp [ht]
        have heq : getField (if jsTruthy (getField out kv.1) then out
            else setField out kv.1 (kv.2 "" employee)) t = getField out t := by
          split
          · rfl
          · exact getField_setField_ne _ _ _ _ (fun he => ht he.symm)
        rw [heq]
        simp only [List.find?, hb]

/-- C3 counterexample: a mapping whose transformation returns the empty
string on the mapped source value ("y") and a non-empty string on the empty
source value.  The claim predicts the output of target "T" to be the
transformation of the source value — the empty string — but the second pass
re-invokes the transformation (the output slot is falsy) and the engine
returns "X". -/
theorem claim_C3_transform_engine_counterexample :
    getField (applyMapping cexMapping cexEmployee) "T" = "X" ∧
    findTransformation cexMapping "T" = some (fun v _ => if v == "" then "X" else "") ∧
    (fun (v : String) (_ : Row) => if v == "" then "X" else "")
      (getField cexEmployee "a") cexEmployee = "" ∧
    ("X" : String) ≠ "" := by
  refine ⟨rfl, rfl, rfl, by decide⟩

/-- C3 (amended): the first pass writes, for each declared (source, target)
pair, the registered transformation applied to (stringified source value,
full record) when one exists and the raw stringified source value
otherwise, the last declared pair for a target winning; the final output
equals this first-pass value whenever it is non-empty or the target has no
transformation, and the second pass overwrites every transformation-key
target whose value after the first pass is empty or absent — including
mapped targets whose first-pass result was empty — with the transformation
applied to an empty source value. -/
theorem claim_C3_transform_engine_amended :
    (∀ (m : ProviderMapping) (employee : Row) (t : String),
      getField (applyFieldMappings m employee) t =
        match m.fieldMappings.reverse.find? (fun fm => fm.targetField == t) with
        | some fm => firstPassValue m employee fm
        | none => "") ∧
    (∀ (m : ProviderMapping) (employee : Row) (t : String),
      (m.transformations.map Prod.fst).Nodup →
      getField (applyMapping m employee) t =
        match findTransformation m t with
        | some transform =>
            if getField (applyFieldMappings m employee) t = "" then transform "" employee
            else getField (applyFieldMappings m employee) t
        | none => getField (applyFieldMappings m employee) t) := by
  constructor
  · intro m employee t
    unfold applyFieldMappings
    rw [getField_firstPass_foldl]
    cases m.fieldMappings.reverse.find? (fun fm => fm.targetField == t) <;> rfl
  · intro m employee t hnd
    unfold applyMapping applySecondPass
    rw [getField_secondPass_foldl employee m.transformations _ t hnd]
    unfold findTransformation
    cases m.transformations.find? (fun kv => kv.1 == t) <;> rfl

theorem claim_C3_transform_engine_amended_witness :
    getField (applyMapping cexMapping cexEmployee) "T" =
      (match findTransformation cexMapping "T" with
       | some transform =>
           if getField (applyFieldMappings cexMapping cexEmployee) "T" = "" then
             transform "" cexEmployee
           else getField (applyFieldMappings cexMapping cexEmployee) "T"
       | none => getField (applyFieldMappings cexMapping cexEmployee) "T") ∧
    getField (applyFieldMappings cexMapping cexEmployee) "T" =
      (match cexMapping.fieldMappings.reverse.find? (fun fm => fm.targetField == "T") with
       | some fm => firstPassValue cexMapping cexEmployee fm
       | none => "") :=
  ⟨claim_C3_transform_engine_amended.2 cexMapping cexEmployee "T" (by decide),
   claim_C3_transform_engine_amended.1 cexMapping cexEmployee "T"⟩

end Payroll
